import Mathlib

set_option maxRecDepth 100000
set_option maxHeartbeats 4000000

/-!
Verification of the sudoku constraint-propagation solver (`src/sudoku.rs`).

The Rust code is shallowly embedded: `Field` is the cell enum, `Board` the
board struct (81 cells, `changed` flag, optional `steps` history).  The
assertion in `Field::set` (a Rust panic for values outside `1..9`) is
modelled by returning `none`; consequently every operation that can reach
that assertion is `Option`-valued, with `none` meaning "the Rust program
panics".  The unbounded `loop` in `Board::solve` is modelled by the
fuel-indexed `solveFuel`; `solve` runs it with fuel 811, and the
termination theorem below shows any fuel above the decreasing measure
gives the same result, so the fuel is immaterial.
-/

namespace Sudoku

/-- Cell state: a fixed digit, or the list of remaining candidates
(`Field` enum in `src/sudoku.rs`). -/
inductive Field where
  | Value : Nat → Field
  | Options : List Nat → Field
deriving DecidableEq, Repr

/-- `Field::with_all_options`. -/
def Field.with_all_options : Field := Field.Options [1, 2, 3, 4, 5, 6, 7, 8, 9]

/-- `Field::set`: asserts `1 <= val <= 9` (panic modelled as `none`), then
overwrites the cell with `Value(val)` unconditionally. -/
def Field.set (_f : Field) (val : Nat) : Option Field :=
  if 1 ≤ val ∧ val ≤ 9 then some (Field.Value val) else none

/-- `Field::remove_option`: drops `val` from the candidate list of an
`Options` cell; no effect on a `Value` cell. -/
def Field.remove_option (f : Field) (val : Nat) : Field :=
  match f with
  | Field.Options opts => Field.Options (opts.filter (fun x => x ≠ val))
  | f => f

/-- Is the cell decided? -/
def Field.isVal : Field → Bool
  | Field.Value _ => true
  | Field.Options _ => false

/-- The board: 81 cells row-major, the transient `changed` flag, and the
optional step history. -/
structure Board where
  data : List Field
  changed : Bool
  steps : Option (List (Nat × Nat))
deriving DecidableEq, Repr

/-- Default cell used for (unreachable) out-of-range reads. -/
def df : Field := Field.Options []

/-- Read cell `i` of a board. -/
def Board.cell (b : Board) (i : Nat) : Field := b.data.getD i df

/-- `Board::new`: 81 cells with all options, `changed = false`, no steps. -/
def Board.new : Board :=
  { data := List.replicate 81 Field.with_all_options
    changed := false
    steps := none }

/-- `Board::neighbours`: the 8 other cells of the row, then the 8 other
cells of the column, then the 4 remaining cells of the 3x3 box (rows other
than `row`, columns other than `col`), in the Rust iteration order. -/
def Board.neighbours (pos : Nat × Nat) : List (Nat × Nat) :=
  let row := pos.1
  let col := pos.2
  let sbr := 3 * (row / 3)
  let sbc := 3 * (col / 3)
  (((List.range 9).filter (fun c => c != col)).map (fun c => (row, c))) ++
  (((List.range 9).filter (fun r => r != row)).map (fun r => (r, col))) ++
  ((((List.range 3).map (fun i => sbr + i)).filter (fun r => r != row)).flatMap
    (fun r => (((List.range 3).map (fun i => sbc + i)).filter (fun c => c != col)).map
      (fun c => (r, c))))

/-- `Board::record_steps`. -/
def Board.record_steps (b : Board) (enable : Bool) : Board :=
  { b with steps := if enable then some [] else none }

/-- Remove candidate `v` from the cell at index `j` of a data vector
(one `self.data[pos].remove_option(val)` call). -/
def removeAt (d : List Field) (j : Nat) (v : Nat) : List Field :=
  d.set j ((d.getD j df).remove_option v)

/-- `Board::set_idx`: set the cell (panic → `none` when `val` is out of
range), remove `val` from the 20 neighbours, append the step when
recording, and mark the board changed. -/
def Board.set_idx (b : Board) (idx val : Nat) : Option Board :=
  ((b.data.getD idx df).set val).map (fun f =>
    let d1 := b.data.set idx f
    let d2 := (Board.neighbours (idx / 9, idx % 9)).foldl
      (fun d p => removeAt d (p.1 * 9 + p.2) val) d1
    { data := d2
      changed := true
      steps := b.steps.map (fun s => s ++ [(idx, val)]) })

/-- `Board::set`. -/
def Board.set (b : Board) (pos : Nat × Nat) (val : Nat) : Option Board :=
  b.set_idx (pos.1 * 9 + pos.2) val

/-- `Board::fill`: truncate the clue sequence to the board size, keep the
present values with their positions, and assign each via `set_idx`. -/
def Board.fill (b : Board) (cs : List (Option Nat)) : Option Board :=
  (((cs.take b.data.length).enum).filterMap
      (fun p => p.2.map (fun x => (p.1, x)))).foldlM
    (fun (bd : Board) q => bd.set_idx q.1 q.2) b

/-- `Board::solve_sole_option`: collect every `Options` cell with exactly
one candidate (against the stable snapshot), then assign them in order. -/
def Board.solve_sole_option (b : Board) : Option Board :=
  ((b.data.enum).filterMap
      (fun p => match p.2 with
        | Field.Options [v] => some (p.1, v)
        | _ => none)).foldlM
    (fun (bd : Board) q => bd.set_idx q.1 q.2) b

/-- Append `idx` to the `k`-th position list (`list[k].push(idx)`). -/
def pushAt (ls : List (List Nat)) (k : Nat) (idx : Nat) : List (List Nat) :=
  ls.set k (ls.getD k [] ++ [idx])

/-- First phase of `Board::solve_by_neighbourhood`: for each position in
the unit whose cell is still `Options`, push it onto the list of every
candidate digit it holds.  The Rust indexes `list[num - 1]`, which panics
when a candidate lies outside `1..9` (modelled as `none`); such candidates
never occur on boards built through the public interface. -/
def Board.sbn_build (b : Board) (positions : List Nat) : Option (List (List Nat)) :=
  positions.foldlM
    (fun ls idx =>
      match b.data.getD idx df with
      | Field.Options opts =>
          opts.foldlM
            (fun ls2 num =>
              if 1 ≤ num ∧ num ≤ 9 then some (pushAt ls2 (num - 1) idx) else none)
            ls
      | _ => some ls)
    (List.replicate 9 [])

/-- Second phase of `Board::solve_by_neighbourhood`, for one digit `num`
with position list `e`: no position → nothing; a single position → assign
`num` there; several positions → if they share a row (resp. column),
remove `num` from the cells of that row (resp. column) outside `e`. -/
def Board.sbn_step (b : Board) (num : Nat) (e : List Nat) : Option Board :=
  match e with
  | [] => some b
  | [p] => b.set_idx p num
  | p :: rest =>
      let row := p / 9
      let col := p % 9
      let sole_row := rest.all (fun x => x / 9 == row)
      let sole_col := rest.all (fun x => x % 9 == col)
      let d1 := if sole_row then
          (((List.range 9).map (fun c => row * 9 + c)).filter
              (fun idx => !(e.contains idx))).foldl
            (fun d idx => removeAt d idx num) b.data
        else b.data
      let d2 := if sole_col then
          (((List.range 9).map (fun r => r * 9 + col)).filter
              (fun idx => !(e.contains idx))).foldl
            (fun d idx => removeAt d idx num) d1
        else d1
      some { b with data := d2 }

/-- `Board::solve_by_neighbourhood`: build the nine position lists from
the current board, then process digit `1` to `9` in order. -/
def Board.solve_by_neighbourhood (b : Board) (positions : List Nat) : Option Board :=
  (Board.sbn_build b positions).bind (fun lss =>
    (lss.enum).foldlM (fun (bd : Board) p => bd.sbn_step (p.1 + 1) p.2) b)

/-- Position list of row `row` (`(0..9).map(|c| row * 9 + c)`). -/
def rowPositions (row : Nat) : List Nat := (List.range 9).map (fun c => row * 9 + c)

/-- Position list of column `col` (`(0..9).map(|r| r * 9 + col)`). -/
def colPositions (col : Nat) : List Nat := (List.range 9).map (fun r => r * 9 + col)

/-- Position list of the box at `(3*sr, 3*sc)` (the Rust `flat_map`). -/
def boxPositions (sr sc : Nat) : List Nat :=
  ((List.range 3).map (fun r => 3 * sr + r)).flatMap
    (fun r => (List.range 3).map (fun c => r * 9 + (3 * sc + c)))

/-- One iteration of the `loop` in `Board::solve`: reset `changed`, run
the sole-option pass, then the 9 rows, the 9 columns and the 9 boxes. -/
def Board.sweep (b : Board) : Option Board :=
  (Board.solve_sole_option { b with changed := false }).bind (fun b1 =>
    ((List.range 9).foldlM (fun (bd : Board) row => bd.solve_by_neighbourhood (rowPositions row)) b1).bind
      (fun b2 =>
        ((List.range 9).foldlM (fun (bd : Board) col => bd.solve_by_neighbourhood (colPositions col)) b2).bind
          (fun b3 =>
            (List.range 3).foldlM
              (fun (bd : Board) sr =>
                (List.range 3).foldlM (fun (bd2 : Board) sc => bd2.solve_by_neighbourhood (boxPositions sr sc))
                  bd)
              b3)))

/-- Fuel-indexed form of the `loop` in `Board::solve`: run a sweep, stop
when `changed` stayed false, repeat otherwise. -/
def Board.solveFuel : Nat → Board → Option Board
  | 0, _ => none
  | n + 1, b =>
      (Board.sweep b).bind (fun b' =>
        if b'.changed then Board.solveFuel n b' else some b')

/-- `Board::solve`.  Fuel 811 exceeds the decreasing measure of any board
(at most 81 fixings plus 81 * 9 eliminations), as proved below. -/
def Board.solve (b : Board) : Option Board := Board.solveFuel 811 b

/-- `n` sweeps in sequence (the states a caller observes during `solve`). -/
def Board.sweepN : Nat → Board → Option Board
  | 0, b => some b
  | n + 1, b => (Board.sweepN n b).bind Board.sweep

/-! ### Basic helper lemmas -/

theorem getD_of_length_le {α : Type _} {d : List α} {k : Nat} (dflt : α)
    (h : d.length ≤ k) : d.getD k dflt = dflt := by
  rw [List.getD_eq_getElem?_getD, List.getElem?_eq_none h, Option.getD_none]

theorem getD_set {α : Type _} (d : List α) (i j : Nat) (x dflt : α) :
    (d.set i x).getD j dflt = if i = j ∧ i < d.length then x else d.getD j dflt := by
  simp only [List.getD_eq_getElem?_getD]
  rw [List.getElem?_set]
  by_cases h1 : i = j
  · subst h1
    by_cases h2 : i < d.length
    · rw [if_pos rfl, if_pos h2, if_pos ⟨rfl, h2⟩]
      rfl
    · rw [if_pos rfl, if_neg h2, if_neg (fun h => h2 h.2),
        List.getElem?_eq_none (Nat.le_of_not_lt h2)]
  · rw [if_neg h1, if_neg (fun h => h1 h.1)]

theorem remove_option_df (v : Nat) : df.remove_option v = df := rfl

theorem remove_option_idem (f : Field) (v : Nat) :
    (f.remove_option v).remove_option v = f.remove_option v := by
  cases f with
  | Value w => rfl
  | Options opts => simp [Field.remove_option, List.filter_filter]

theorem isVal_remove_option (f : Field) (v : Nat) :
    (f.remove_option v).isVal = f.isVal := by
  cases f <;> rfl

theorem getD_removeAt (d : List Field) (j k v : Nat) :
    (removeAt d j v).getD k df =
      if j = k then (d.getD k df).remove_option v else d.getD k df := by
  unfold removeAt
  rw [getD_set]
  by_cases h : j = k
  · subst h
    by_cases h2 : j < d.length
    · simp [h2]
    · simp only [h2, and_false, if_false, if_true]
      rw [getD_of_length_le df (Nat.le_of_not_lt h2), remove_option_df]
  · simp [h]

theorem length_removeAt (d : List Field) (j v : Nat) :
    (removeAt d j v).length = d.length := List.length_set d j _

theorem getD_foldl_removeAt (L : List Nat) (d : List Field) (v k : Nat) :
    ((L.foldl (fun d j => removeAt d j v) d).getD k df) =
      if k ∈ L then (d.getD k df).remove_option v else d.getD k df := by
  induction L generalizing d with
  | nil => simp
  | cons a L ih =>
      rw [List.foldl_cons, ih, getD_removeAt]
      by_cases ha : a = k
      · subst ha
        by_cases hk : a ∈ L
        · rw [if_pos rfl, if_pos hk, remove_option_idem, if_pos (List.mem_cons_self a L)]
        · rw [if_pos rfl, if_neg hk, if_pos (List.mem_cons_self a L)]
      · by_cases hk : k ∈ L
        · rw [if_neg ha, if_pos hk, if_pos (List.mem_cons.mpr (Or.inr hk))]
        · rw [if_neg ha, if_neg hk,
            if_neg (fun hmem => (List.mem_cons.mp hmem).elim (fun h => ha h.symm) hk)]

theorem length_foldl_removeAt (L : List Nat) (d : List Field) (v : Nat) :
    (L.foldl (fun d j => removeAt d j v) d).length = d.length := by
  induction L generalizing d with
  | nil => rfl
  | cons a L ih => rw [List.foldl_cons, ih, length_removeAt]

/-! ### Generic lemmas for `Option`-valued folds -/

theorem foldlM_inv {σ α : Type _} (f : σ → α → Option σ) (P : σ → Prop) (l : List α)
    (h : ∀ s a s', a ∈ l → P s → f s a = some s' → P s') :
    ∀ s s', l.foldlM f s = some s' → P s → P s' := by
  induction l with
  | nil =>
      intro s s' hf hp
      rw [List.foldlM_nil] at hf
      cases hf
      exact hp
  | cons a l ih =>
      intro s s' hf hp
      rw [List.foldlM_cons] at hf
      cases hfa : f s a with
      | none => rw [hfa] at hf; simp [Option.bind_eq_bind] at hf
      | some s1 =>
          rw [hfa] at hf
          simp only [Option.bind_eq_bind, Option.some_bind] at hf
          exact ih (fun s a' s' ha' => h s a' s' (List.mem_cons_of_mem _ ha')) s1 s' hf
            (h s a s1 (List.mem_cons_self _ _) hp hfa)

theorem foldlM_rel {σ α : Type _} (f : σ → α → Option σ) (R : σ → σ → Prop) (l : List α)
    (hrefl : ∀ s, R s s) (htrans : ∀ a b c, R a b → R b c → R a c)
    (h : ∀ s a s', a ∈ l → f s a = some s' → R s s') :
    ∀ s s', l.foldlM f s = some s' → R s s' := by
  induction l with
  | nil =>
      intro s s' hf
      rw [List.foldlM_nil] at hf
      cases hf
      exact hrefl s
  | cons a l ih =>
      intro s s' hf
      rw [List.foldlM_cons] at hf
      cases hfa : f s a with
      | none => rw [hfa] at hf; simp [Option.bind_eq_bind] at hf
      | some s1 =>
          rw [hfa] at hf
          simp only [Option.bind_eq_bind, Option.some_bind] at hf
          exact htrans s s1 s' (h s a s1 (List.mem_cons_self _ _) hfa)
            (ih (fun s a' s' ha' => h s a' s' (List.mem_cons_of_mem _ ha')) s1 s' hf)

theorem foldlM_some {σ α : Type _} (f : σ → α → Option σ) (P : σ → Prop) (l : List α)
    (h : ∀ s a, a ∈ l → P s → ∃ s', f s a = some s' ∧ P s') :
    ∀ s, P s → ∃ s', l.foldlM f s = some s' ∧ P s' := by
  induction l with
  | nil =>
      intro s hp
      exact ⟨s, by rw [List.foldlM_nil]; rfl, hp⟩
  | cons a l ih =>
      intro s hp
      obtain ⟨s1, hfa, hp1⟩ := h s a (List.mem_cons_self _ _) hp
      obtain ⟨s', hrest, hp'⟩ :=
        ih (fun s a' ha' => h s a' (List.mem_cons_of_mem _ ha')) s1 hp1
      exact ⟨s', by rw [List.foldlM_cons, hfa]; simp only [Option.bind_eq_bind, Option.some_bind]; exact hrest, hp'⟩

theorem foldlM_some' {σ α : Type _} (f : σ → α → Option σ) (l : List α)
    (h : ∀ s a, a ∈ l → ∃ s', f s a = some s') :
    ∀ s : σ, ∃ s', l.foldlM f s = some s' := by
  intro s
  obtain ⟨s', h', -⟩ := foldlM_some f (fun _ => True) l
    (fun s a ha _ => by
      obtain ⟨s', hs'⟩ := h s a ha
      exact ⟨s', hs', trivial⟩) s trivial
  exact ⟨s', h'⟩

theorem foldlM_fix {σ α : Type _} (f : σ → α → Option σ) (l : List α) (s : σ)
    (h : ∀ a ∈ l, f s a = some s) : l.foldlM f s = some s := by
  induction l with
  | nil => rfl
  | cons a l ih =>
      rw [List.foldlM_cons, h a (List.mem_cons_self _ _)]
      simp only [Option.bind_eq_bind, Option.some_bind]
      exact ih (fun a' ha' => h a' (List.mem_cons_of_mem _ ha'))

/-! ### Cell evolution relations -/

/-- One observable evolution step of a cell, allowing a decided cell to be
re-assigned (what the raw primitives guarantee). -/
def cellShrink (old new : Field) : Prop :=
  match old, new with
  | Field.Options S, Field.Options T => List.Sublist T S
  | Field.Options _, Field.Value _ => True
  | Field.Value _, Field.Value _ => True
  | Field.Value _, Field.Options _ => False

/-- Monotone evolution of a cell: candidates only shrink or collapse to a
value, and a decided cell keeps its value. -/
def cellMono (old new : Field) : Prop :=
  match old, new with
  | Field.Options S, Field.Options T => List.Sublist T S
  | Field.Options _, Field.Value _ => True
  | Field.Value v, Field.Value w => w = v
  | Field.Value _, Field.Options _ => False

theorem cellShrink_refl (f : Field) : cellShrink f f := by
  cases f <;> simp [cellShrink]

theorem cellShrink_trans {a b c : Field} (h1 : cellShrink a b) (h2 : cellShrink b c) :
    cellShrink a c := by
  cases a <;> cases b <;> cases c <;> simp_all [cellShrink]
  exact h2.trans h1

theorem cellMono_refl (f : Field) : cellMono f f := by
  cases f <;> simp [cellMono]

theorem cellMono_trans {a b c : Field} (h1 : cellMono a b) (h2 : cellMono b c) :
    cellMono a c := by
  cases a <;> cases b <;> cases c <;> simp_all [cellMono]
  exact h2.trans h1

theorem cellMono_of_cellShrink {a b : Field} (ha : ∃ S, a = Field.Options S)
    (h : cellShrink a b) : cellMono a b := by
  obtain ⟨S, rfl⟩ := ha
  cases b <;> simp_all [cellShrink, cellMono]

theorem cellShrink_isVal {a b : Field} (h : cellShrink a b) :
    a.isVal = true → b.isVal = true := by
  cases a <;> cases b <;> simp_all [cellShrink, Field.isVal]

theorem cellMono_isVal {a b : Field} (h : cellMono a b) :
    a.isVal = true → b.isVal = true := by
  cases a <;> cases b <;> simp_all [cellMono, Field.isVal]

theorem cellShrink_remove_option (f : Field) (v : Nat) : cellShrink f (f.remove_option v) := by
  cases f with
  | Value w => simp [Field.remove_option, cellShrink]
  | Options opts => simp [Field.remove_option, cellShrink, List.filter_sublist]

theorem cellMono_remove_option {old f : Field} (v : Nat) (h : cellMono old f) :
    cellMono old (f.remove_option v) := by
  cases old <;> cases f <;> simp_all [Field.remove_option, cellMono]
  exact (List.filter_sublist _).trans h

/-! ### Neighbour index arithmetic -/

/-- Flat indices of the 20 neighbours of `idx`. -/
def nIdx (idx : Nat) : List Nat :=
  (Board.neighbours (idx / 9, idx % 9)).map (fun p => p.1 * 9 + p.2)

theorem nIdx_lt : ∀ idx, idx < 81 → ∀ k ∈ nIdx idx, k < 81 := by decide

theorem nIdx_ne_self : ∀ idx, idx < 81 → ∀ k ∈ nIdx idx, k ≠ idx := by decide

theorem getD_foldl_removeAt_pairs (ps : List (Nat × Nat)) (d : List Field) (v k : Nat) :
    ((ps.foldl (fun d p => removeAt d (p.1 * 9 + p.2) v) d).getD k df) =
      if k ∈ ps.map (fun p => p.1 * 9 + p.2) then (d.getD k df).remove_option v
      else d.getD k df := by
  rw [← getD_foldl_removeAt (ps.map (fun p => p.1 * 9 + p.2)) d v k, List.foldl_map]

theorem length_foldl_removeAt_pairs (ps : List (Nat × Nat)) (d : List Field) (v : Nat) :
    (ps.foldl (fun d p => removeAt d (p.1 * 9 + p.2) v) d).length = d.length := by
  rw [← List.foldl_map (fun p : Nat × Nat => p.1 * 9 + p.2) (fun d j => removeAt d j v)]
  exact length_foldl_removeAt _ d v

/-! ### Inversion of `set_idx` -/

theorem set_idx_inv {b b' : Board} {idx val : Nat} (hs : b.set_idx idx val = some b') :
    (1 ≤ val ∧ val ≤ 9) ∧
    b' = { data := (Board.neighbours (idx / 9, idx % 9)).foldl
              (fun d p => removeAt d (p.1 * 9 + p.2) val) (b.data.set idx (Field.Value val))
           changed := true
           steps := b.steps.map (fun s => s ++ [(idx, val)]) } := by
  unfold Board.set_idx Field.set at hs
  by_cases h : 1 ≤ val ∧ val ≤ 9
  · rw [if_pos h] at hs
    simp only [Option.map_some'] at hs
    exact ⟨h, (Option.some.inj hs).symm⟩
  · rw [if_neg h] at hs
    simp at hs

theorem set_idx_isSome (b : Board) (idx val : Nat) (h1 : 1 ≤ val) (h9 : val ≤ 9) :
    ∃ b', b.set_idx idx val = some b' := by
  unfold Board.set_idx Field.set
  rw [if_pos ⟨h1, h9⟩]
  exact ⟨_, rfl⟩

theorem length_set_idx {b b' : Board} {idx val : Nat} (hs : b.set_idx idx val = some b') :
    b'.data.length = b.data.length := by
  rw [(set_idx_inv hs).2]
  simp only [length_foldl_removeAt_pairs, List.length_set]

theorem cell_set_idx {b b' : Board} {idx val : Nat} (hs : b.set_idx idx val = some b')
    (k : Nat) :
    b'.cell k =
      (if k ∈ nIdx idx
       then (if idx = k ∧ idx < b.data.length then Field.Value val else b.cell k).remove_option val
       else (if idx = k ∧ idx < b.data.length then Field.Value val else b.cell k)) := by
  rw [(set_idx_inv hs).2]
  show ((Board.neighbours (idx / 9, idx % 9)).foldl _ (b.data.set idx (Field.Value val))).getD k df
      = _
  rw [getD_foldl_removeAt_pairs, getD_set]
  rfl

theorem cell_set_idx_self {b b' : Board} {idx val : Nat} (hs : b.set_idx idx val = some b')
    (hidx : idx < b.data.length) (h81 : b.data.length = 81) :
    b'.cell idx = Field.Value val := by
  rw [cell_set_idx hs idx,
    if_neg (fun hmem => nIdx_ne_self idx (h81 ▸ hidx) idx hmem rfl),
    if_pos ⟨rfl, hidx⟩]

theorem changed_set_idx {b b' : Board} {idx val : Nat} (hs : b.set_idx idx val = some b') :
    b'.changed = true := by
  rw [(set_idx_inv hs).2]

theorem steps_set_idx {b b' : Board} {idx val : Nat} (hs : b.set_idx idx val = some b') :
    b'.steps = b.steps.map (fun s => s ++ [(idx, val)]) := by
  rw [(set_idx_inv hs).2]

/-! ### The sweep invariant -/

/-- How the step history may evolve from `s0` while the changed flag is
`ch`: absent histories stay absent, present ones grow by a suffix `t`, and
the flag is set exactly when the suffix is nonempty. -/
def stepsOk (s0 s' : Option (List (Nat × Nat))) (ch : Bool) : Prop :=
  match s0 with
  | none => s' = none
  | some l => ∃ t, s' = some (l ++ t) ∧ (ch = true ↔ t ≠ [])

/-- Invariant tying every intermediate state `s` of a sweep to the board
`b0` the sweep started from. -/
structure SInv (b0 s : Board) : Prop where
  len : s.data.length = b0.data.length
  mono : ∀ i, cellMono (b0.cell i) (s.cell i)
  wit : s.changed = true → ∃ i, (b0.cell i).isVal = false ∧ (s.cell i).isVal = true
  stp : stepsOk b0.steps s.steps s.changed
  emp : ∀ i, b0.cell i = Field.Options [] → s.cell i = Field.Options []

theorem SInv_init (b : Board) : SInv b { b with changed := false } :=
  { len := rfl
    mono := fun i => cellMono_refl _
    wit := fun h => by simp at h
    stp := by
      show stepsOk b.steps b.steps false
      cases hsteps : b.steps with
      | none => rfl
      | some l => exact ⟨[], by simp, by simp⟩
    emp := fun i h => h }

theorem SInv_removeAt (b0 s : Board) (j v : Nat) (h : SInv b0 s) :
    SInv b0 { s with data := removeAt s.data j v } :=
  { len := (length_removeAt s.data j v).trans h.len
    mono := fun i => by
      show cellMono (b0.cell i) ((removeAt s.data j v).getD i df)
      rw [getD_removeAt]
      by_cases hj : j = i
      · rw [if_pos hj]
        exact cellMono_remove_option v (h.mono i)
      · rw [if_neg hj]
        exact h.mono i
    wit := fun hch => by
      obtain ⟨i, hi0, hi⟩ := h.wit hch
      refine ⟨i, hi0, ?_⟩
      show ((removeAt s.data j v).getD i df).isVal = true
      rw [getD_removeAt]
      by_cases hj : j = i
      · rw [if_pos hj, isVal_remove_option]
        exact hi
      · rw [if_neg hj]
        exact hi
    stp := h.stp
    emp := fun i hi => by
      show (removeAt s.data j v).getD i df = Field.Options []
      rw [getD_removeAt]
      by_cases hj : j = i
      · rw [if_pos hj]
        show (s.cell i).remove_option v = Field.Options []
        rw [h.emp i hi]
        rfl
      · rw [if_neg hj]
        exact h.emp i hi }

theorem SInv_foldl_removeAt (b0 : Board) (L : List Nat) (v : Nat) :
    ∀ s : Board, SInv b0 s →
      SInv b0 { s with data := L.foldl (fun d j => removeAt d j v) s.data } := by
  induction L with
  | nil => intro s h; exact h
  | cons a L ih =>
      intro s h
      rw [List.foldl_cons]
      exact ih { s with data := removeAt s.data a v } (SInv_removeAt b0 s a v h)

theorem SInv_set_idx {b0 s s' : Board} {t v : Nat}
    (h : SInv b0 s)
    (hb0 : ∃ os, b0.cell t = Field.Options os ∧ os ≠ [])
    (ht : t < b0.data.length) (h81 : b0.data.length = 81)
    (hs : s.set_idx t v = some s') : SInv b0 s' := by
  obtain ⟨os, hos, hosne⟩ := hb0
  have hlen' : s'.data.length = b0.data.length := (length_set_idx hs).trans h.len
  have hts : t < s.data.length := h.len ▸ ht
  refine ⟨hlen', ?_, ?_, ?_, ?_⟩
  · intro k
    rw [cell_set_idx hs k]
    by_cases hk : t = k
    · subst hk
      rw [if_neg (fun hmem => nIdx_ne_self t (h81 ▸ ht) t hmem rfl), if_pos ⟨rfl, hts⟩]
      rw [hos]
      trivial
    · by_cases hmem : k ∈ nIdx t
      · rw [if_pos hmem, if_neg (fun hc => hk hc.1)]
        exact cellMono_remove_option v (h.mono k)
      · rw [if_neg hmem, if_neg (fun hc => hk hc.1)]
        exact h.mono k
  · intro _
    refine ⟨t, by rw [hos]; rfl, ?_⟩
    rw [cell_set_idx_self hs hts (h.len.trans h81)]
    rfl
  · have hch : s'.changed = true := changed_set_idx hs
    have hst : s'.steps = s.steps.map (fun s => s ++ [(t, v)]) := steps_set_idx hs
    have hstp := h.stp
    unfold stepsOk at hstp ⊢
    cases hsteps : b0.steps with
    | none =>
        rw [hsteps] at hstp
        rw [hst, hstp]
        rfl
    | some l =>
        rw [hsteps] at hstp
        obtain ⟨tl, htl, _⟩ := hstp
        refine ⟨tl ++ [(t, v)], ?_, ?_⟩
        · rw [hst, htl]
          simp
        · simp [hch]
  · intro i hi
    rw [cell_set_idx hs i]
    have hne : ¬(t = i ∧ t < s.data.length) := by
      rintro ⟨rfl, -⟩
      rw [hos] at hi
      exact hosne (Field.Options.inj hi)
    by_cases hmem : i ∈ nIdx t
    · rw [if_pos hmem, if_neg hne]
      show (s.cell i).remove_option v = Field.Options []
      rw [h.emp i hi]
      rfl
    · rw [if_neg hmem, if_neg hne]
      exact h.emp i hi

theorem mem_enum_facts {α : Type _} {l : List α} {p : Nat × α} (h : p ∈ l.enum) (dflt : α) :
    p.1 < l.length ∧ l.getD p.1 dflt = p.2 := by
  rw [List.mem_enum_iff_getElem?] at h
  have hlt : p.1 < l.length := by
    by_contra hlt
    rw [List.getElem?_eq_none (Nat.le_of_not_lt hlt)] at h
    cases h
  refine ⟨hlt, ?_⟩
  rw [List.getD_eq_getElem?_getD, h]
  rfl

theorem sole_target_facts {s : Board} {q : Nat × Nat}
    (h : q ∈ (s.data.enum).filterMap (fun p => match p.2 with
        | Field.Options [v] => some (p.1, v)
        | _ => none)) :
    q.1 < s.data.length ∧ s.cell q.1 = Field.Options [q.2] := by
  rw [List.mem_filterMap] at h
  obtain ⟨p, hp, hmatch⟩ := h
  obtain ⟨hlt, hgetD⟩ := mem_enum_facts hp df
  cases hf : p.2 with
  | Value w => rw [hf] at hmatch; cases hmatch
  | Options opts =>
      cases opts with
      | nil => rw [hf] at hmatch; cases hmatch
      | cons v rest =>
          cases rest with
          | nil =>
              rw [hf] at hmatch
              cases hmatch
              rw [hf] at hgetD
              exact ⟨hlt, hgetD⟩
          | cons w rest' => rw [hf] at hmatch; cases hmatch

theorem cellMono_opts_src {old : Field} {T : List Nat} (h : cellMono old (Field.Options T))
    (hne : T ≠ []) : ∃ S, old = Field.Options S ∧ S ≠ [] := by
  cases old with
  | Value w => exact absurd h (by simp [cellMono])
  | Options S =>
      refine ⟨S, rfl, ?_⟩
      have hsub : List.Sublist T S := h
      intro hS
      subst hS
      rw [List.sublist_nil] at hsub
      exact hne hsub

theorem SInv_sole {b0 s s' : Board} (h : SInv b0 s) (h81 : b0.data.length = 81)
    (hs : s.solve_sole_option = some s') : SInv b0 s' := by
  unfold Board.solve_sole_option at hs
  refine foldlM_inv _ (SInv b0) _ ?_ s s' hs h
  intro st q st' hq hP hstep
  obtain ⟨hlt, hcell⟩ := sole_target_facts hq
  have hmono := h.mono q.1
  rw [hcell] at hmono
  have hb0 := cellMono_opts_src hmono (by simp)
  exact SInv_set_idx hP hb0 (h.len ▸ hlt) h81 hstep

theorem getD_nested_mem {ls : List (List Nat)} {k t : Nat} (h : t ∈ ls.getD k []) :
    ∃ e ∈ ls, t ∈ e := by
  by_cases hk : k < ls.length
  · refine ⟨ls.getD k [], ?_, h⟩
    rw [List.getD_eq_getElem?_getD, List.getElem?_eq_getElem hk]
    exact List.getElem_mem hk
  · rw [getD_of_length_le [] (Nat.le_of_not_lt hk)] at h
    cases h

theorem sbn_build_facts {b : Board} {positions : List Nat} {lss : List (List Nat)}
    (h : Board.sbn_build b positions = some lss) :
    lss.length = 9 ∧
    ∀ e ∈ lss, ∀ t ∈ e, t ∈ positions ∧
      ∃ opts, b.cell t = Field.Options opts ∧ opts ≠ [] := by
  unfold Board.sbn_build at h
  refine foldlM_inv _
    (fun ls => ls.length = 9 ∧ ∀ e ∈ ls, ∀ t ∈ e, t ∈ positions ∧
      ∃ opts, b.cell t = Field.Options opts ∧ opts ≠ []) _ ?_ _ lss h
    ⟨List.length_replicate 9 [], fun e he t ht => by
      rw [List.eq_of_mem_replicate he] at ht; cases ht⟩
  intro ls idx ls' hidx hP hstep
  cases hcell : b.data.getD idx df with
  | Value w =>
      rw [hcell] at hstep
      cases hstep
      exact hP
  | Options opts =>
      rw [hcell] at hstep
      refine foldlM_inv _
        (fun ls => ls.length = 9 ∧ ∀ e ∈ ls, ∀ t ∈ e, t ∈ positions ∧
          ∃ opts, b.cell t = Field.Options opts ∧ opts ≠ []) _ ?_ ls ls' hstep hP
      intro ls2 num ls2' hnum hP2 hstep2
      by_cases hrange : 1 ≤ num ∧ num ≤ 9
      · rw [if_pos hrange] at hstep2
        cases hstep2
        refine ⟨(List.length_set _ _ _).trans hP2.1, ?_⟩
        intro e he t ht
        rcases List.mem_or_eq_of_mem_set he with he' | he'
        · exact hP2.2 e he' t ht
        · subst he'
          rcases List.mem_append.mp ht with ht' | ht'
          · obtain ⟨e', he', hte'⟩ := getD_nested_mem ht'
            exact hP2.2 e' he' t hte'
          · rw [List.mem_singleton] at ht'
            subst ht'
            exact ⟨hidx, opts, hcell, List.ne_nil_of_mem hnum⟩
      · rw [if_neg hrange] at hstep2
        cases hstep2

theorem SInv_ite_foldl (b0 s : Board) (c : Prop) [Decidable c] (L : List Nat) (v : Nat)
    (h : SInv b0 s) :
    SInv b0 { s with data := if c then L.foldl (fun d j => removeAt d j v) s.data
                             else s.data } := by
  by_cases hc : c
  · rw [if_pos hc]
    exact SInv_foldl_removeAt b0 L v s h
  · rw [if_neg hc]
    exact h

theorem SInv_sbn_step {b0 sc s s' : Board} {num : Nat} {e : List Nat}
    (hsc : SInv b0 sc) (hself : SInv b0 s) (h81 : b0.data.length = 81)
    (he : ∀ t ∈ e, t < 81 ∧ ∃ opts, sc.cell t = Field.Options opts ∧ opts ≠ [])
    (hs : s.sbn_step num e = some s') : SInv b0 s' := by
  cases e with
  | nil =>
      cases hs
      exact hself
  | cons p tail =>
      cases tail with
      | nil =>
          obtain ⟨hlt, opts, hopts, hne⟩ := he p (List.mem_cons_self p [])
          have hmono := hsc.mono p
          rw [hopts] at hmono
          have hb0 := cellMono_opts_src hmono hne
          exact SInv_set_idx hself hb0 (h81 ▸ hlt) h81 hs
      | cons q rest =>
          unfold Board.sbn_step at hs
          cases hs
          exact SInv_ite_foldl b0 _ _ _ num
            (SInv_ite_foldl b0 s _ _ num hself)

theorem SInv_sbn {b0 sc s' : Board} {positions : List Nat}
    (hsc : SInv b0 sc) (h81 : b0.data.length = 81)
    (hpos : ∀ t ∈ positions, t < 81)
    (hs : sc.solve_by_neighbourhood positions = some s') : SInv b0 s' := by
  unfold Board.solve_by_neighbourhood at hs
  cases hb : Board.sbn_build sc positions with
  | none => rw [hb] at hs; cases hs
  | some lss =>
      rw [hb, Option.some_bind] at hs
      obtain ⟨-, hmem⟩ := sbn_build_facts hb
      refine foldlM_inv _ (SInv b0) _ ?_ sc s' hs hsc
      intro st q st' hq hP hstep
      have hq2 : q.2 ∈ lss := by
        rw [List.mem_enum_iff_getElem?] at hq
        exact List.getElem?_mem hq
      refine SInv_sbn_step hsc hP h81 (fun t ht => ?_) hstep
      obtain ⟨htpos, hopts⟩ := hmem q.2 hq2 t ht
      exact ⟨hpos t htpos, hopts⟩

theorem rowPositions_lt : ∀ row, row < 9 → ∀ t ∈ rowPositions row, t < 81 := by decide

theorem colPositions_lt : ∀ col, col < 9 → ∀ t ∈ colPositions col, t < 81 := by decide

theorem boxPositions_lt : ∀ sr, sr < 3 → ∀ sc, sc < 3 → ∀ t ∈ boxPositions sr sc, t < 81 := by
  decide

/-- Master invariant lemma: one sweep, relative to its starting board. -/
theorem SInv_sweep {b b' : Board} (h81 : b.data.length = 81)
    (hs : Board.sweep b = some b') : SInv b b' := by
  unfold Board.sweep at hs
  cases h1 : Board.solve_sole_option { b with changed := false } with
  | none => rw [h1] at hs; cases hs
  | some b1 =>
      rw [h1, Option.some_bind] at hs
      have hP1 : SInv b b1 := SInv_sole (SInv_init b) h81 h1
      cases h2 : (List.range 9).foldlM
          (fun (bd : Board) row => bd.solve_by_neighbourhood (rowPositions row)) b1 with
      | none => rw [h2] at hs; cases hs
      | some b2 =>
          rw [h2, Option.some_bind] at hs
          have hP2 : SInv b b2 := by
            refine foldlM_inv _ (SInv b) _ ?_ b1 b2 h2 hP1
            intro st row st' hrow hP hstep
            exact SInv_sbn hP h81
              (rowPositions_lt row (List.mem_range.mp hrow)) hstep
          cases h3 : (List.range 9).foldlM
              (fun (bd : Board) col => bd.solve_by_neighbourhood (colPositions col)) b2 with
          | none => rw [h3] at hs; cases hs
          | some b3 =>
              rw [h3, Option.some_bind] at hs
              have hP3 : SInv b b3 := by
                refine foldlM_inv _ (SInv b) _ ?_ b2 b3 h3 hP2
                intro st col st' hcol hP hstep
                exact SInv_sbn hP h81
                  (colPositions_lt col (List.mem_range.mp hcol)) hstep
              refine foldlM_inv _ (SInv b) _ ?_ b3 b' hs hP3
              intro st sr st' hsr hP hstep
              refine foldlM_inv _ (SInv b) _ ?_ st st' hstep hP
              intro st2 sc st2' hsc2 hP2' hstep2
              exact SInv_sbn hP2' h81
                (boxPositions_lt sr (List.mem_range.mp hsr) sc (List.mem_range.mp hsc2))
                hstep2

/-! ### Shrink relation, validity, and the decreasing measure -/

/-- Board-level shrink: what every primitive guarantees unconditionally. -/
def BShr (s s' : Board) : Prop :=
  s'.data.length = s.data.length ∧ ∀ i, cellShrink (s.cell i) (s'.cell i)

theorem BShr_refl (s : Board) : BShr s s := ⟨rfl, fun i => cellShrink_refl _⟩

theorem BShr_trans {a b c : Board} (h1 : BShr a b) (h2 : BShr b c) : BShr a c :=
  ⟨h2.1.trans h1.1, fun i => cellShrink_trans (h1.2 i) (h2.2 i)⟩

theorem cellShrink_any_value (f : Field) (v : Nat) : cellShrink f (Field.Value v) := by
  cases f <;> trivial

theorem BShr_set_idx {b b' : Board} {idx val : Nat} (hs : b.set_idx idx val = some b') :
    BShr b b' := by
  refine ⟨length_set_idx hs, fun k => ?_⟩
  rw [cell_set_idx hs k]
  by_cases h1 : idx = k ∧ idx < b.data.length
  · by_cases hmem : k ∈ nIdx idx
    · rw [if_pos hmem, if_pos h1]
      exact cellShrink_any_value _ val
    · rw [if_neg hmem, if_pos h1]
      exact cellShrink_any_value _ val
  · by_cases hmem : k ∈ nIdx idx
    · rw [if_pos hmem, if_neg h1]
      exact cellShrink_remove_option _ val
    · rw [if_neg hmem, if_neg h1]
      exact cellShrink_refl _

theorem BShr_fill {b b' : Board} {cs : List (Option Nat)} (hs : b.fill cs = some b') :
    BShr b b' := by
  unfold Board.fill at hs
  exact foldlM_rel _ BShr _ BShr_refl (fun a b c => BShr_trans)
    (fun s q s' _ hstep => BShr_set_idx hstep) b b' hs

/-- Every candidate list on the board is inside `1..9`. -/
def Valid (b : Board) : Prop :=
  ∀ i opts, b.cell i = Field.Options opts → ∀ v ∈ opts, 1 ≤ v ∧ v ≤ 9

theorem cell_new (i : Nat) :
    Board.new.cell i = if i < 81 then Field.with_all_options else df := by
  show (List.replicate 81 Field.with_all_options).getD i df = _
  rw [List.getD_eq_getElem?_getD, List.getElem?_replicate]
  by_cases h : i < 81 <;> simp [h]

theorem Valid_new : Valid Board.new := by
  intro i opts h v hv
  rw [cell_new] at h
  by_cases hi : i < 81
  · rw [if_pos hi] at h
    have : opts = [1, 2, 3, 4, 5, 6, 7, 8, 9] := Field.Options.inj h.symm
    subst this
    revert hv
    revert v
    decide
  · rw [if_neg hi] at h
    have : opts = [] := Field.Options.inj h.symm
    subst this
    cases hv

theorem Valid_of_shrink {b b' : Board} (hv : Valid b)
    (h : ∀ i, cellShrink (b.cell i) (b'.cell i)) : Valid b' := by
  intro i opts hcell v hvmem
  have hi := h i
  rw [hcell] at hi
  cases hc : b.cell i with
  | Value w => rw [hc] at hi; cases hi
  | Options S =>
      rw [hc] at hi
      exact hv i S hc v (hi.subset hvmem)

theorem cellShrink_of_cellMono {a b : Field} (h : cellMono a b) : cellShrink a b := by
  cases a <;> cases b <;> simp_all [cellMono, cellShrink]

theorem Valid_of_mono {b b' : Board} (hv : Valid b)
    (h : ∀ i, cellMono (b.cell i) (b'.cell i)) : Valid b' :=
  Valid_of_shrink hv (fun i => cellShrink_of_cellMono (h i))

/-! ### Success of a sweep on valid boards -/

theorem sbn_isSome {sc : Board} (hv : Valid sc) (positions : List Nat) :
    ∃ s', sc.solve_by_neighbourhood positions = some s' := by
  unfold Board.solve_by_neighbourhood
  obtain ⟨lss, hlss⟩ : ∃ lss, Board.sbn_build sc positions = some lss := by
    unfold Board.sbn_build
    refine foldlM_some' _ _ ?_ _
    intro ls idx hidx
    cases hcell : sc.data.getD idx df with
    | Value w => exact ⟨ls, rfl⟩
    | Options opts =>
        refine foldlM_some' _ _ ?_ ls
        intro ls2 num hnum
        have hrange := hv idx opts hcell num hnum
        exact ⟨pushAt ls2 (num - 1) idx, by rw [if_pos hrange]⟩
  rw [hlss, Option.some_bind]
  obtain ⟨hlen9, -⟩ := sbn_build_facts hlss
  refine foldlM_some' _ _ ?_ sc
  intro st q hq
  have hq1 : q.1 < 9 := by
    have := (mem_enum_facts hq []).1
    rw [hlen9] at this
    exact this
  cases he : q.2 with
  | nil => exact ⟨st, rfl⟩
  | cons p tail =>
      cases tail with
      | nil =>
          exact set_idx_isSome st p (q.1 + 1) (Nat.le_add_left 1 q.1) (by omega)
      | cons w rest => exact ⟨_, rfl⟩

theorem sweep_isSome {b : Board} (hv : Valid b) (h81 : b.data.length = 81) :
    ∃ b', Board.sweep b = some b' := by
  unfold Board.sweep
  obtain ⟨b1, h1⟩ : ∃ b1, Board.solve_sole_option { b with changed := false } = some b1 := by
    unfold Board.solve_sole_option
    refine foldlM_some' _ _ ?_ _
    intro s q hq
    obtain ⟨-, hcell⟩ := sole_target_facts hq
    obtain ⟨ha, hb⟩ := hv q.1 [q.2] hcell q.2 (List.mem_singleton.mpr rfl)
    exact set_idx_isSome s q.1 q.2 ha hb
  rw [h1, Option.some_bind]
  have hP1 : SInv b b1 := SInv_sole (SInv_init b) h81 h1
  obtain ⟨b2, h2, hP2⟩ : ∃ b2, (List.range 9).foldlM
      (fun (bd : Board) row => bd.solve_by_neighbourhood (rowPositions row)) b1 = some b2 ∧
      SInv b b2 := by
    refine foldlM_some _ (SInv b) _ ?_ b1 hP1
    intro st row hrow hP
    obtain ⟨st', hst'⟩ := sbn_isSome (Valid_of_mono hv hP.mono) (rowPositions row)
    exact ⟨st', hst', SInv_sbn hP h81 (rowPositions_lt row (List.mem_range.mp hrow)) hst'⟩
  rw [h2, Option.some_bind]
  obtain ⟨b3, h3, hP3⟩ : ∃ b3, (List.range 9).foldlM
      (fun (bd : Board) col => bd.solve_by_neighbourhood (colPositions col)) b2 = some b3 ∧
      SInv b b3 := by
    refine foldlM_some _ (SInv b) _ ?_ b2 hP2
    intro st col hcol hP
    obtain ⟨st', hst'⟩ := sbn_isSome (Valid_of_mono hv hP.mono) (colPositions col)
    exact ⟨st', hst', SInv_sbn hP h81 (colPositions_lt col (List.mem_range.mp hcol)) hst'⟩
  rw [h3, Option.some_bind]
  obtain ⟨b4, h4, -⟩ : ∃ b4, (List.range 3).foldlM
      (fun (bd : Board) sr =>
        (List.range 3).foldlM (fun (bd2 : Board) sc => bd2.solve_by_neighbourhood
          (boxPositions sr sc)) bd) b3 = some b4 ∧ SInv b b4 := by
    refine foldlM_some _ (SInv b) _ ?_ b3 hP3
    intro st sr hsr hP
    refine foldlM_some _ (SInv b) _ ?_ st hP
    intro st2 sc hsc2 hP2'
    obtain ⟨st2', hst2'⟩ := sbn_isSome (Valid_of_mono hv hP2'.mono) (boxPositions sr sc)
    exact ⟨st2', hst2',
      SInv_sbn hP2' h81
        (boxPositions_lt sr (List.mem_range.mp hsr) sc (List.mem_range.mp hsc2)) hst2'⟩
  exact ⟨b4, h4⟩

/-! ### The decreasing measure -/

/-- Measure of one cell: decided cells weigh nothing, an undecided cell
weighs one plus its candidate count. -/
def muCell : Field → Nat
  | Field.Value _ => 0
  | Field.Options opts => opts.length + 1

/-- Total measure of a board: bounded by `81 * (9 + 1)`, strictly
decreasing across every sweep that sets the changed flag. -/
def muB (b : Board) : Nat := (b.data.map muCell).sum

theorem muCell_mono {a b : Field} (h : cellMono a b) : muCell b ≤ muCell a := by
  cases a with
  | Value v => cases b with
    | Value w => exact Nat.le_refl _
    | Options T => cases h
  | Options S => cases b with
    | Value w => exact Nat.zero_le _
    | Options T => exact Nat.succ_le_succ (List.Sublist.length_le h)

theorem sum_map_le :
    ∀ (d d' : List Field), d'.length = d.length →
      (∀ i, muCell (d'.getD i df) ≤ muCell (d.getD i df)) →
      (d'.map muCell).sum ≤ (d.map muCell).sum := by
  intro d
  induction d with
  | nil =>
      intro d' hlen h
      have : d' = [] := List.length_eq_zero.mp hlen
      subst this
      exact Nat.le_refl _
  | cons a d ih =>
      intro d' hlen h
      cases d' with
      | nil => simp at hlen
      | cons a' d'' =>
          simp only [List.map_cons, List.sum_cons]
          have hlen' : d''.length = d.length := by simpa using hlen
          have h0 : muCell a' ≤ muCell a := h 0
          have := ih d'' hlen' (fun i => h (i + 1))
          omega

theorem sum_map_add_le (g : Nat) :
    ∀ (d d' : List Field), d'.length = d.length →
      (∀ i, muCell (d'.getD i df) ≤ muCell (d.getD i df)) →
      ∀ k, k < d.length → muCell (d'.getD k df) + g ≤ muCell (d.getD k df) →
      (d'.map muCell).sum + g ≤ (d.map muCell).sum := by
  intro d
  induction d with
  | nil =>
      intro d' hlen h k hk
      cases hk
  | cons a d ih =>
      intro d' hlen h k hk hgap
      cases d' with
      | nil => simp at hlen
      | cons a' d'' =>
          simp only [List.map_cons, List.sum_cons]
          have hlen' : d''.length = d.length := by simpa using hlen
          have hrest : ∀ i, muCell (d''.getD i df) ≤ muCell (d.getD i df) :=
            fun i => h (i + 1)
          cases k with
          | zero =>
              have hle := sum_map_le d d'' hlen' hrest
              have h0 : muCell a' + g ≤ muCell a := hgap
              omega
          | succ k' =>
              have h0 : muCell a' ≤ muCell a := h 0
              have := ih d'' hlen' hrest k'
                (by simp only [List.length_cons] at hk; omega) hgap
              omega

theorem muCell_shrink {a b : Field} (h : cellShrink a b) : muCell b ≤ muCell a := by
  cases a with
  | Value v => cases b with
    | Value w => exact Nat.le_refl _
    | Options T => cases h
  | Options S => cases b with
    | Value w => exact Nat.zero_le _
    | Options T => exact Nat.succ_le_succ (List.Sublist.length_le h)

theorem muB_sweep_decr {b b' : Board} (h81 : b.data.length = 81)
    (hs : Board.sweep b = some b') (hch : b'.changed = true) :
    muB b' + 1 ≤ muB b := by
  have hI := SInv_sweep h81 hs
  obtain ⟨i, hi0, hi1⟩ := hI.wit hch
  have hilt : i < b.data.length := by
    by_contra hge
    have hle : b'.data.length ≤ i := by
      rw [hI.len]
      omega
    rw [Board.cell, getD_of_length_le df hle] at hi1
    simp [df, Field.isVal] at hi1
  refine sum_map_add_le 1 b.data b'.data hI.len
    (fun k => muCell_mono (hI.mono k)) i hilt ?_
  cases hc : b.cell i with
  | Value w => rw [hc] at hi0; simp [Field.isVal] at hi0
  | Options opts =>
      cases hc' : b'.cell i with
      | Value w =>
          show muCell ((b'.data).getD i df) + 1 ≤ muCell ((b.data).getD i df)
          rw [show (b'.data).getD i df = b'.cell i from rfl, hc',
            show (b.data).getD i df = b.cell i from rfl, hc]
          simp [muCell]
      | Options o2 => rw [hc'] at hi1; simp [Field.isVal] at hi1

theorem muB_le_of_shrink {b b' : Board} (h : BShr b b') : muB b' ≤ muB b :=
  sum_map_le b.data b'.data h.1 (fun i => muCell_shrink (h.2 i))

/-- Fuel-stability: any fuel exceeding the measure yields the same result. -/
theorem solveFuel_stable :
    ∀ m (b : Board), Valid b → b.data.length = 81 → muB b < m →
      ∃ r, ∀ n, muB b + 1 ≤ n → Board.solveFuel n b = some r := by
  intro m
  induction m with
  | zero =>
      intro b _ _ h
      exact absurd h (Nat.not_lt_zero _)
  | succ m ih =>
      intro b hv h81 hlt
      obtain ⟨b1, hs1⟩ := sweep_isSome hv h81
      have hI := SInv_sweep h81 hs1
      cases hch : b1.changed with
      | false =>
          refine ⟨b1, fun n hn => ?_⟩
          cases n with
          | zero => omega
          | succ n' =>
              show Board.solveFuel (n' + 1) b = some b1
              unfold Board.solveFuel
              rw [hs1, Option.some_bind, hch]
              simp
      | true =>
          have hdec : muB b1 + 1 ≤ muB b := muB_sweep_decr h81 hs1 hch
          have hv1 : Valid b1 := Valid_of_mono hv hI.mono
          have h81' : b1.data.length = 81 := hI.len.trans h81
          obtain ⟨r, hr⟩ := ih b1 hv1 h81' (by omega)
          refine ⟨r, fun n hn => ?_⟩
          cases n with
          | zero => omega
          | succ n' =>
              show Board.solveFuel (n' + 1) b = some r
              unfold Board.solveFuel
              rw [hs1, Option.some_bind, hch]
              simp only [if_true]
              exact hr n' (by omega)

theorem muB_new : muB Board.new = 810 := by decide

theorem fill_pair_lt {b : Board} {cs : List (Option Nat)} {q : Nat × Nat}
    (h : q ∈ ((cs.take b.data.length).enum).filterMap
        (fun p => p.2.map (fun x => (p.1, x)))) :
    q.1 < b.data.length := by
  rw [List.mem_filterMap] at h
  obtain ⟨p, hp, hmap⟩ := h
  have hlt := (mem_enum_facts hp none).1
  rw [List.length_take] at hlt
  cases hx : p.2 with
  | none => rw [hx] at hmap; cases hmap
  | some x =>
      rw [hx] at hmap
      cases hmap
      show p.1 < b.data.length
      omega

/-- After a successful `fill` on a fresh board, either some clue was
assigned (measure drops to at most 800) or no clue was present at all and
the board is exactly the fresh board. -/
theorem fill_new_mu {cs : List (Option Nat)} {b : Board}
    (h : Board.fill Board.new cs = some b) : muB b ≤ 800 ∨ b = Board.new := by
  unfold Board.fill at h
  cases hps : (cs.take Board.new.data.length).enum.filterMap
      (fun p => p.2.map (fun x => (p.1, x))) with
  | nil =>
      rw [hps, List.foldlM_nil] at h
      exact Or.inr (Option.some.inj h).symm
  | cons q qs =>
      rw [hps, List.foldlM_cons] at h
      cases hq : Board.new.set_idx q.1 q.2 with
      | none => rw [hq] at h; simp [Option.bind_eq_bind] at h
      | some s1 =>
          rw [hq] at h
          simp only [Option.bind_eq_bind, Option.some_bind] at h
          left
          have hmem : q ∈ ((cs.take Board.new.data.length).enum).filterMap
              (fun p => p.2.map (fun x => (p.1, x))) := by
            rw [hps]
            exact List.mem_cons_self q qs
          have hq1 : q.1 < Board.new.data.length := fill_pair_lt hmem
          have h81 : Board.new.data.length = 81 := rfl
          have hcell1 : s1.cell q.1 = Field.Value q.2 := cell_set_idx_self hq hq1 h81
          have hmu1 : muB s1 + 10 ≤ muB Board.new := by
            refine sum_map_add_le 10 Board.new.data s1.data (length_set_idx hq)
              (fun k => muCell_shrink ((BShr_set_idx hq).2 k)) q.1 hq1 ?_
            show muCell (s1.cell q.1) + 10 ≤ muCell (Board.new.cell q.1)
            rw [hcell1, cell_new, if_pos (h81 ▸ hq1)]
            simp [muCell, Field.with_all_options]
          have hshr : BShr s1 b :=
            foldlM_rel _ BShr _ BShr_refl (fun a b c => BShr_trans)
              (fun s q s' _ hstep => BShr_set_idx hstep) s1 b h
          have := muB_le_of_shrink hshr
          rw [muB_new] at hmu1
          omega

/-! ### Concrete inputs used by the scenario theorems -/

/-- Clues where the only progress a sweep can make is a pointing-pair
elimination (digits 1, 8, 9 confined to row 0 of box 0). -/
def cl1 : List (Option Nat) := [none, none, none, none, none, none, none, none, none, some 2, some 3, some 4, none, none, none, none, none, none, some 5, some 6, some 7, none, none, none, none, none, none, none, none, none, none, none, none, none, none, none, none, none, none, none, none, none, none, none, none, none, none, none, none, none, none, none, none, none, none, none, none, none, none, none, none, none, none, none, none, none, none, none, none, none, none, none, none, none, none, none, none, none, none, none, none]

/-- Clues whose first solve ends in an eliminations-only sweep, leaving a
naked single that only a second solve picks up. -/
def cl6 : List (Option Nat) := [none, none, none, none, none, none, none, none, none, some 6, some 7, some 8, some 3, none, none, none, none, none, some 2, some 9, some 5, some 4, none, none, none, none, none, none, none, none, some 5, none, none, none, none, none, none, none, none, some 6, none, none, none, none, none, none, none, none, some 7, none, none, none, none, none, none, none, none, some 8, none, none, none, none, none, none, none, none, some 9, none, none, none, none, none, none, none, none, none, none, none, none, none, none]

/-- Conflicting clues: the eight row neighbours and one column neighbour
of cell 0 use up all nine digits, emptying its candidate set. -/
def cl10 : List (Option Nat) := [none, some 1, some 2, some 3, some 4, some 5, some 6, some 7, some 8, some 9, none, none, none, none, none, none, none, none, none, none, none, none, none, none, none, none, none, none, none, none, none, none, none, none, none, none, none, none, none, none, none, none, none, none, none, none, none, none, none, none, none, none, none, none, none, none, none, none, none, none, none, none, none, none, none, none, none, none, none, none, none, none, none, none, none, none, none, none, none, none, none]

/-- The clue string quoted in the specification, mapped character by
character (digit 1..9 to a clue, anything else to a blank).  It has 84
characters. -/
def cl2spec : List (Option Nat) := [some 9, some 2, none, none, none, none, none, none, none, some 5, none, none, some 8, some 7, none, none, none, none, none, none, some 3, some 8, none, some 9, some 1, none, none, none, none, none, some 5, some 2, some 9, some 3, none, some 1, some 6, none, none, none, some 9, none, none, none, none, none, some 3, none, none, some 7, some 3, none, some 6, some 4, some 9, some 8, none, none, none, none, some 4, some 1, none, some 2, some 5, none, none, none, none, none, some 5, some 3, none, none, some 1, none, none, none, none, none, none, none, some 7, some 3]

/-- The genuine 81-character clue string of the hard-puzzle scenario (the
embedded `solve_hard` test board). -/
def cl2fixed : List (Option Nat) := [some 9, some 2, none, none, none, none, none, none, none, some 5, none, none, some 8, some 7, none, none, none, none, none, some 3, some 8, none, some 9, some 1, none, none, none, none, some 5, some 2, some 9, some 3, none, some 1, some 6, none, none, some 9, none, none, none, none, none, some 3, none, none, some 7, some 3, none, some 6, some 4, some 9, some 8, none, none, none, none, some 4, some 1, none, some 2, some 5, none, none, none, none, none, some 5, some 3, none, none, some 1, none, none, none, none, none, none, none, some 7, some 3]

/-- The solved grid the hard-puzzle scenario must produce. -/
def expectedC2 : List Nat := [9, 2, 6, 3, 4, 5, 7, 1, 8, 5, 4, 1, 8, 7, 2, 3, 9, 6, 7, 3, 8, 6, 9, 1, 4, 2, 5, 8, 5, 2, 9, 3, 7, 1, 6, 4, 6, 9, 4, 1, 2, 8, 5, 3, 7, 1, 7, 3, 5, 6, 4, 9, 8, 2, 3, 8, 7, 4, 1, 6, 2, 5, 9, 2, 6, 9, 7, 5, 3, 8, 4, 1, 4, 1, 5, 2, 8, 9, 6, 7, 3]

/-- A valid fully solved grid (the solution of the `solve_normal` test). -/
def solvedGrid : List Nat := [8, 7, 4, 1, 9, 5, 6, 2, 3, 9, 5, 2, 7, 3, 6, 8, 4, 1, 3, 1, 6, 4, 8, 2, 9, 7, 5, 2, 3, 7, 9, 5, 8, 4, 1, 6, 5, 8, 9, 6, 1, 4, 7, 3, 2, 6, 4, 1, 3, 2, 7, 5, 9, 8, 4, 9, 3, 8, 6, 1, 2, 5, 7, 1, 2, 8, 5, 7, 9, 3, 6, 4, 7, 6, 5, 2, 4, 3, 1, 8, 9]

/-! ### Single-sweep stepping of the solve loop -/

theorem solveFuel_step_true {b b' : Board} (n : Nat) (hs : Board.sweep b = some b')
    (hc : b'.changed = true) : Board.solveFuel (n + 1) b = Board.solveFuel n b' := by
  show (Board.sweep b).bind
      (fun b'' => if b''.changed then Board.solveFuel n b'' else some b'') =
    Board.solveFuel n b'
  rw [hs, Option.some_bind, hc]
  simp

theorem solveFuel_step_done {b b' : Board} (n : Nat) (hs : Board.sweep b = some b')
    (hc : b'.changed = false) : Board.solveFuel (n + 1) b = some b' := by
  show (Board.sweep b).bind
      (fun b'' => if b''.changed then Board.solveFuel n b'' else some b'') =
    some b'
  rw [hs, Option.some_bind, hc]
  simp

/-- The fresh board is already a fixed point of the sweep. -/
theorem sweep_new_fix : Board.sweep Board.new = some Board.new := by decide

theorem solve_new_fix : Board.solve Board.new = some Board.new :=
  solveFuel_step_done 810 sweep_new_fix rfl

/-! ### Intermediate board states of the concrete scenarios, one sweep
apart (each is verified against the preceding one by a `decide` step
theorem below) -/

def c2aF : Board :=
  { data := [Field.Value 9, Field.Value 2, Field.Options [1, 4, 6, 7], Field.Options [3, 5, 6], Field.Options [4], Field.Options [5, 6], Field.Options [3, 4, 5, 6, 7, 8], Field.Options [1, 4], Field.Options [4, 5, 6, 7, 8], Field.Value 5, Field.Options [1, 4, 6], Field.Options [1, 4, 6], Field.Value 8, Field.Value 7, Field.Options [2, 6], Field.Options [3, 4, 6], Field.Options [1, 2, 4, 9], Field.Options [2, 4, 6, 9], Field.Options [4, 6, 7], Field.Value 3, Field.Value 8, Field.Options [2, 5, 6], Field.Value 9, Field.Value 1, Field.Options [4, 5, 6, 7], Field.Options [2, 4], Field.Options [2, 4, 5, 6, 7], Field.Options [4, 8], Field.Value 5, Field.Value 2, Field.Value 9, Field.Value 3, Field.Options [7, 8], Field.Value 1, Field.Value 6, Field.Options [4, 7], Field.Options [1, 4, 6, 8], Field.Value 9, Field.Options [1, 4, 6], Field.Options [1, 2, 5, 7], Field.Options [2, 8], Field.Options [2, 5, 7, 8], Field.Options [4, 5, 7], Field.Value 3, Field.Options [2, 4, 5, 7], Field.Options [1], Field.Value 7, Field.Value 3, Field.Options [1, 2, 5], Field.Value 6, Field.Value 4, Field.Value 9, Field.Value 8, Field.Options [2, 5], Field.Options [3, 6, 7, 8], Field.Options [6, 8], Field.Options [6, 7, 9], Field.Value 4, Field.Value 1, Field.Options [6, 7, 8, 9], Field.Value 2, Field.Value 5, Field.Options [6, 8, 9], Field.Options [2, 4, 6, 7, 8], Field.Options [4, 6, 8], Field.Options [4, 6, 7, 9], Field.Options [2, 6, 7], Field.Value 5, Field.Value 3, Field.Options [4, 6, 8], Field.Options [4, 9], Field.Value 1, Field.Options [1, 2, 4, 6, 8], Field.Options [1, 4, 6, 8], Field.Options [1, 4, 5, 6, 9], Field.Options [2, 6], Field.Options [2, 8], Field.Options [2, 6, 8, 9], Field.Options [4, 6, 8], Field.Value 7, Field.Value 3]
    changed := true
    steps := none }

def c2aS1 : Board :=
  { data := [Field.Value 9, Field.Value 2, Field.Options [1, 6], Field.Value 3, Field.Value 4, Field.Options [5, 6], Field.Options [5, 6, 7, 8], Field.Options [1], Field.Options [5, 6, 7, 8], Field.Value 5, Field.Options [4, 6], Field.Options [1, 4, 6], Field.Value 8, Field.Value 7, Field.Options [2, 6], Field.Value 3, Field.Options [1, 2, 4, 9], Field.Options [4, 6, 9], Field.Options [4, 6, 7], Field.Value 3, Field.Value 8, Field.Options [2, 5, 6], Field.Value 9, Field.Value 1, Field.Options [4, 5, 6, 7], Field.Options [2, 4], Field.Options [4, 5, 6, 7], Field.Options [4, 8], Field.Value 5, Field.Value 2, Field.Value 9, Field.Value 3, Field.Options [7, 8], Field.Value 1, Field.Value 6, Field.Options [4, 7], Field.Options [4, 6, 8], Field.Value 9, Field.Options [4, 6], Field.Value 1, Field.Options [2, 8], Field.Options [2, 5, 7, 8], Field.Options [4, 5, 7], Field.Value 3, Field.Options [2, 4, 5, 7], Field.Value 1, Field.Value 7, Field.Value 3, Field.Options [2, 5], Field.Value 6, Field.Value 4, Field.Value 9, Field.Value 8, Field.Options [2, 5], Field.Value 3, Field.Options [6, 8], Field.Value 7, Field.Value 4, Field.Value 1, Field.Options [6, 8, 9], Field.Value 2, Field.Value 5, Field.Options [6, 8, 9], Field.Options [2, 4, 6], Field.Options [4, 6, 8], Field.Options [4, 6, 9], Field.Value 7, Field.Value 5, Field.Value 3, Field.Options [4, 6, 8], Field.Options [4, 9], Field.Value 1, Field.Options [4, 6], Field.Value 1, Field.Value 5, Field.Options [2, 6], Field.Options [2, 8], Field.Options [2, 6, 8, 9], Field.Options [4, 6, 8], Field.Value 7, Field.Value 3]
    changed := true
    steps := none }

def c2aS2 : Board :=
  { data := [Field.Value 9, Field.Value 2, Field.Options [6], Field.Value 3, Field.Value 4, Field.Options [5, 6], Field.Options [5, 7], Field.Value 1, Field.Options [5, 6, 7, 8], Field.Value 5, Field.Value 4, Field.Value 1, Field.Value 8, Field.Value 7, Field.Options [2, 6], Field.Value 3, Field.Value 9, Field.Options [6], Field.Value 7, Field.Value 3, Field.Value 8, Field.Options [5, 6], Field.Value 9, Field.Value 1, Field.Options [4, 5], Field.Value 2, Field.Options [4, 5, 6], Field.Options [8], Field.Value 5, Field.Value 2, Field.Value 9, Field.Value 3, Field.Options [7, 8], Field.Value 1, Field.Value 6, Field.Options [4, 7], Field.Options [6, 8], Field.Value 9, Field.Options [4, 6], Field.Value 1, Field.Options [2, 8], Field.Options [2, 5, 7, 8], Field.Options [4, 5, 7], Field.Value 3, Field.Options [2, 4, 5, 7], Field.Value 1, Field.Value 7, Field.Value 3, Field.Options [2, 5], Field.Value 6, Field.Value 4, Field.Value 9, Field.Value 8, Field.Options [2, 5], Field.Value 3, Field.Options [6, 8], Field.Value 7, Field.Value 4, Field.Value 1, Field.Options [6, 8], Field.Value 2, Field.Value 5, Field.Value 9, Field.Value 2, Field.Options [6, 8], Field.Value 9, Field.Value 7, Field.Value 5, Field.Value 3, Field.Options [4, 6, 8], Field.Options [4], Field.Value 1, Field.Value 4, Field.Value 1, Field.Value 5, Field.Options [2, 6], Field.Options [2, 8], Field.Value 9, Field.Options [6, 8], Field.Value 7, Field.Value 3]
    changed := true
    steps := none }

def c2aS3 : Board :=
  { data := [Field.Value 9, Field.Value 2, Field.Value 6, Field.Value 3, Field.Value 4, Field.Value 5, Field.Value 7, Field.Value 1, Field.Value 8, Field.Value 5, Field.Value 4, Field.Value 1, Field.Value 8, Field.Value 7, Field.Value 2, Field.Value 3, Field.Value 9, Field.Value 6, Field.Value 7, Field.Value 3, Field.Value 8, Field.Value 6, Field.Value 9, Field.Value 1, Field.Value 4, Field.Value 2, Field.Value 5, Field.Value 8, Field.Value 5, Field.Value 2, Field.Value 9, Field.Value 3, Field.Value 7, Field.Value 1, Field.Value 6, Field.Value 4, Field.Value 6, Field.Value 9, Field.Value 4, Field.Value 1, Field.Value 2, Field.Options [8], Field.Value 5, Field.Value 3, Field.Value 7, Field.Value 1, Field.Value 7, Field.Value 3, Field.Value 5, Field.Value 6, Field.Value 4, Field.Value 9, Field.Value 8, Field.Value 2, Field.Value 3, Field.Value 8, Field.Value 7, Field.Value 4, Field.Value 1, Field.Value 6, Field.Value 2, Field.Value 5, Field.Value 9, Field.Value 2, Field.Value 6, Field.Value 9, Field.Value 7, Field.Value 5, Field.Value 3, Field.Value 8, Field.Value 4, Field.Value 1, Field.Value 4, Field.Value 1, Field.Value 5, Field.Value 2, Field.Value 8, Field.Value 9, Field.Value 6, Field.Value 7, Field.Value 3]
    changed := true
    steps := none }

def c2aS4 : Board :=
  { data := [Field.Value 9, Field.Value 2, Field.Value 6, Field.Value 3, Field.Value 4, Field.Value 5, Field.Value 7, Field.Value 1, Field.Value 8, Field.Value 5, Field.Value 4, Field.Value 1, Field.Value 8, Field.Value 7, Field.Value 2, Field.Value 3, Field.Value 9, Field.Value 6, Field.Value 7, Field.Value 3, Field.Value 8, Field.Value 6, Field.Value 9, Field.Value 1, Field.Value 4, Field.Value 2, Field.Value 5, Field.Value 8, Field.Value 5, Field.Value 2, Field.Value 9, Field.Value 3, Field.Value 7, Field.Value 1, Field.Value 6, Field.Value 4, Field.Value 6, Field.Value 9, Field.Value 4, Field.Value 1, Field.Value 2, Field.Value 8, Field.Value 5, Field.Value 3, Field.Value 7, Field.Value 1, Field.Value 7, Field.Value 3, Field.Value 5, Field.Value 6, Field.Value 4, Field.Value 9, Field.Value 8, Field.Value 2, Field.Value 3, Field.Value 8, Field.Value 7, Field.Value 4, Field.Value 1, Field.Value 6, Field.Value 2, Field.Value 5, Field.Value 9, Field.Value 2, Field.Value 6, Field.Value 9, Field.Value 7, Field.Value 5, Field.Value 3, Field.Value 8, Field.Value 4, Field.Value 1, Field.Value 4, Field.Value 1, Field.Value 5, Field.Value 2, Field.Value 8, Field.Value 9, Field.Value 6, Field.Value 7, Field.Value 3]
    changed := true
    steps := none }

def c2aS5 : Board :=
  { data := [Field.Value 9, Field.Value 2, Field.Value 6, Field.Value 3, Field.Value 4, Field.Value 5, Field.Value 7, Field.Value 1, Field.Value 8, Field.Value 5, Field.Value 4, Field.Value 1, Field.Value 8, Field.Value 7, Field.Value 2, Field.Value 3, Field.Value 9, Field.Value 6, Field.Value 7, Field.Value 3, Field.Value 8, Field.Value 6, Field.Value 9, Field.Value 1, Field.Value 4, Field.Value 2, Field.Value 5, Field.Value 8, Field.Value 5, Field.Value 2, Field.Value 9, Field.Value 3, Field.Value 7, Field.Value 1, Field.Value 6, Field.Value 4, Field.Value 6, Field.Value 9, Field.Value 4, Field.Value 1, Field.Value 2, Field.Value 8, Field.Value 5, Field.Value 3, Field.Value 7, Field.Value 1, Field.Value 7, Field.Value 3, Field.Value 5, Field.Value 6, Field.Value 4, Field.Value 9, Field.Value 8, Field.Value 2, Field.Value 3, Field.Value 8, Field.Value 7, Field.Value 4, Field.Value 1, Field.Value 6, Field.Value 2, Field.Value 5, Field.Value 9, Field.Value 2, Field.Value 6, Field.Value 9, Field.Value 7, Field.Value 5, Field.Value 3, Field.Value 8, Field.Value 4, Field.Value 1, Field.Value 4, Field.Value 1, Field.Value 5, Field.Value 2, Field.Value 8, Field.Value 9, Field.Value 6, Field.Value 7, Field.Value 3]
    changed := false
    steps := none }

def c2xF : Board :=
  { data := [Field.Value 9, Field.Value 2, Field.Options [4, 6, 7, 8], Field.Options [1, 3, 4, 6], Field.Options [1, 3, 4, 5, 6], Field.Options [1, 4, 5, 6], Field.Options [5, 6, 7, 8], Field.Options [3, 4, 7, 8], Field.Options [5, 6, 7, 8], Field.Value 5, Field.Options [1, 4, 6], Field.Options [4, 6], Field.Value 8, Field.Value 7, Field.Options [1, 2, 4, 6], Field.Options [2, 6, 9], Field.Options [2, 3, 4, 9], Field.Options [2, 6, 9], Field.Options [4, 7], Field.Options [4, 6, 7], Field.Value 3, Field.Value 8, Field.Options [4, 5, 6], Field.Value 9, Field.Value 1, Field.Options [2, 4, 7], Field.Options [2, 5, 6, 7], Field.Options [4, 7, 8], Field.Options [4, 7], Field.Options [4, 7, 8], Field.Value 5, Field.Value 2, Field.Value 9, Field.Value 3, Field.Options [7, 8], Field.Value 1, Field.Value 6, Field.Options [1, 4, 7], Field.Options [2, 4, 5, 7, 8], Field.Options [1, 4], Field.Value 9, Field.Options [1, 4, 8], Field.Options [2, 5, 7, 8], Field.Options [2, 7, 8], Field.Options [2, 5, 7, 8], Field.Options [1, 8], Field.Value 3, Field.Options [2, 5, 8, 9], Field.Options [1], Field.Value 7, Field.Value 3, Field.Options [2, 5, 8, 9], Field.Value 6, Field.Value 4, Field.Value 9, Field.Value 8, Field.Options [6, 7], Field.Options [2, 3, 6, 7], Field.Options [3, 5, 6], Field.Options [2, 5, 6, 7], Field.Value 4, Field.Value 1, Field.Options [2, 6, 7], Field.Value 2, Field.Value 5, Field.Options [4, 6, 7], Field.Options [1, 4, 6, 7, 9], Field.Options [1, 4, 6, 8], Field.Options [1, 4, 6, 7, 8], Field.Options [6, 7, 8, 9], Field.Value 5, Field.Value 3, Field.Options [3, 4, 7], Field.Options [4, 6, 7], Field.Value 1, Field.Options [2, 3, 4, 6, 7, 9], Field.Options [3, 4, 5, 6, 8], Field.Options [2, 4, 5, 6, 7, 8], Field.Options [2, 6, 7, 8, 9], Field.Options [2, 7, 8, 9], Field.Options [2, 6, 7, 8, 9]]
    changed := true
    steps := none }

def c2xS1 : Board :=
  { data := [Field.Value 9, Field.Value 2, Field.Value 8, Field.Options [3, 4, 6], Field.Options [1, 3, 4, 5, 6], Field.Options [1, 4, 5, 6], Field.Options [6, 7], Field.Options [4, 7], Field.Options [5, 6, 7], Field.Value 5, Field.Options [4, 6], Field.Options [4, 6], Field.Value 8, Field.Value 7, Field.Value 2, Field.Options [6], Field.Value 3, Field.Value 9, Field.Options [4, 7], Field.Options [4, 6, 7], Field.Value 3, Field.Value 8, Field.Options [4, 5, 6], Field.Value 9, Field.Value 1, Field.Options [2, 4, 7], Field.Options [5, 6, 7], Field.Options [4, 7, 8], Field.Options [4, 7], Field.Options [4, 7], Field.Value 5, Field.Value 2, Field.Value 9, Field.Value 3, Field.Options [7, 8], Field.Value 1, Field.Value 6, Field.Value 1, Field.Value 5, Field.Options [4], Field.Value 9, Field.Value 8, Field.Options [7], Field.Options [7], Field.Options [7], Field.Options [8], Field.Value 3, Field.Value 9, Field.Value 1, Field.Value 7, Field.Value 3, Field.Value 5, Field.Value 6, Field.Value 4, Field.Value 9, Field.Value 8, Field.Options [6, 7], Field.Options [2, 3, 6, 7], Field.Options [3, 5, 6], Field.Options [5, 6, 7], Field.Value 4, Field.Value 1, Field.Options [2, 6, 7], Field.Value 2, Field.Value 5, Field.Options [4, 6, 7], Field.Value 9, Field.Options [1, 4, 6, 8], Field.Options [1, 4, 6, 7], Field.Options [6, 7, 8], Field.Value 5, Field.Value 3, Field.Value 3, Field.Options [4, 6, 7], Field.Value 1, Field.Options [2, 4, 6, 7], Field.Options [4, 5, 6, 8], Field.Options [4, 5, 6, 7], Field.Options [6, 7, 8], Field.Value 9, Field.Options [2, 6, 7, 8]]
    changed := true
    steps := none }

def c2xS2 : Board :=
  { data := [Field.Value 9, Field.Value 2, Field.Value 8, Field.Options [3, 6], Field.Options [1, 3, 5, 6], Field.Options [1, 5, 6], Field.Options [], Field.Value 4, Field.Options [5], Field.Value 5, Field.Options [4], Field.Options [4], Field.Value 8, Field.Value 7, Field.Value 2, Field.Value 6, Field.Value 3, Field.Value 9, Field.Options [7], Field.Value 6, Field.Value 3, Field.Value 8, Field.Value 4, Field.Value 9, Field.Value 1, Field.Value 2, Field.Options [5], Field.Options [4, 7], Field.Options [4, 7], Field.Options [4, 7], Field.Value 5, Field.Value 2, Field.Value 9, Field.Value 3, Field.Value 8, Field.Value 1, Field.Value 6, Field.Value 1, Field.Value 5, Field.Value 4, Field.Value 9, Field.Value 8, Field.Value 7, Field.Value 7, Field.Value 7, Field.Value 8, Field.Value 3, Field.Value 9, Field.Value 1, Field.Value 7, Field.Value 3, Field.Value 5, Field.Value 6, Field.Value 4, Field.Value 9, Field.Value 8, Field.Options [7], Field.Options [3, 7], Field.Options [3, 5], Field.Options [5, 7], Field.Value 4, Field.Value 1, Field.Value 6, Field.Value 2, Field.Value 5, Field.Options [4, 6, 7], Field.Value 9, Field.Value 8, Field.Options [1, 4, 6, 7], Field.Options [], Field.Value 5, Field.Value 3, Field.Value 3, Field.Options [4, 7], Field.Value 1, Field.Options [2, 6, 7], Field.Options [5, 6], Field.Options [4, 5, 6, 7], Field.Options [], Field.Value 9, Field.Value 8]
    changed := true
    steps := none }

def c2xS3 : Board :=
  { data := [Field.Value 9, Field.Value 2, Field.Value 8, Field.Value 6, Field.Value 1, Field.Options [], Field.Options [], Field.Value 4, Field.Value 5, Field.Value 5, Field.Value 4, Field.Value 4, Field.Value 8, Field.Value 7, Field.Value 2, Field.Value 6, Field.Value 3, Field.Value 9, Field.Value 7, Field.Value 6, Field.Value 3, Field.Value 8, Field.Value 4, Field.Value 9, Field.Value 1, Field.Value 2, Field.Value 5, Field.Value 4, Field.Value 7, Field.Options [], Field.Value 5, Field.Value 2, Field.Value 9, Field.Value 3, Field.Value 8, Field.Value 1, Field.Value 6, Field.Value 1, Field.Value 5, Field.Value 4, Field.Value 9, Field.Value 8, Field.Value 7, Field.Value 7, Field.Value 7, Field.Value 8, Field.Value 3, Field.Value 9, Field.Value 1, Field.Value 7, Field.Value 3, Field.Value 5, Field.Value 6, Field.Value 4, Field.Value 9, Field.Value 8, Field.Value 7, Field.Options [3], Field.Options [3, 5], Field.Options [5], Field.Value 4, Field.Value 1, Field.Value 6, Field.Value 2, Field.Value 5, Field.Value 6, Field.Value 9, Field.Value 8, Field.Value 7, Field.Options [], Field.Value 5, Field.Value 3, Field.Value 3, Field.Options [], Field.Value 1, Field.Value 2, Field.Value 6, Field.Options [5], Field.Options [], Field.Value 9, Field.Value 8]
    changed := true
    steps := none }

def c2xS4 : Board :=
  { data := [Field.Value 9, Field.Value 2, Field.Value 8, Field.Value 6, Field.Value 1, Field.Options [], Field.Options [], Field.Value 4, Field.Value 5, Field.Value 5, Field.Value 4, Field.Value 4, Field.Value 8, Field.Value 7, Field.Value 2, Field.Value 6, Field.Value 3, Field.Value 9, Field.Value 7, Field.Value 6, Field.Value 3, Field.Value 8, Field.Value 4, Field.Value 9, Field.Value 1, Field.Value 2, Field.Value 5, Field.Value 4, Field.Value 7, Field.Options [], Field.Value 5, Field.Value 2, Field.Value 9, Field.Value 3, Field.Value 8, Field.Value 1, Field.Value 6, Field.Value 1, Field.Value 5, Field.Value 4, Field.Value 9, Field.Value 8, Field.Value 7, Field.Value 7, Field.Value 7, Field.Value 8, Field.Value 3, Field.Value 9, Field.Value 1, Field.Value 7, Field.Value 3, Field.Value 5, Field.Value 6, Field.Value 4, Field.Value 9, Field.Value 8, Field.Value 7, Field.Value 3, Field.Options [], Field.Value 5, Field.Value 4, Field.Value 1, Field.Value 6, Field.Value 2, Field.Value 5, Field.Value 6, Field.Value 9, Field.Value 8, Field.Value 7, Field.Options [], Field.Value 5, Field.Value 3, Field.Value 3, Field.Options [], Field.Value 1, Field.Value 2, Field.Value 6, Field.Value 5, Field.Options [], Field.Value 9, Field.Value 8]
    changed := true
    steps := none }

def c2xS5 : Board :=
  { data := [Field.Value 9, Field.Value 2, Field.Value 8, Field.Value 6, Field.Value 1, Field.Options [], Field.Options [], Field.Value 4, Field.Value 5, Field.Value 5, Field.Value 4, Field.Value 4, Field.Value 8, Field.Value 7, Field.Value 2, Field.Value 6, Field.Value 3, Field.Value 9, Field.Value 7, Field.Value 6, Field.Value 3, Field.Value 8, Field.Value 4, Field.Value 9, Field.Value 1, Field.Value 2, Field.Value 5, Field.Value 4, Field.Value 7, Field.Options [], Field.Value 5, Field.Value 2, Field.Value 9, Field.Value 3, Field.Value 8, Field.Value 1, Field.Value 6, Field.Value 1, Field.Value 5, Field.Value 4, Field.Value 9, Field.Value 8, Field.Value 7, Field.Value 7, Field.Value 7, Field.Value 8, Field.Value 3, Field.Value 9, Field.Value 1, Field.Value 7, Field.Value 3, Field.Value 5, Field.Value 6, Field.Value 4, Field.Value 9, Field.Value 8, Field.Value 7, Field.Value 3, Field.Options [], Field.Value 5, Field.Value 4, Field.Value 1, Field.Value 6, Field.Value 2, Field.Value 5, Field.Value 6, Field.Value 9, Field.Value 8, Field.Value 7, Field.Options [], Field.Value 5, Field.Value 3, Field.Value 3, Field.Options [], Field.Value 1, Field.Value 2, Field.Value 6, Field.Value 5, Field.Options [], Field.Value 9, Field.Value 8]
    changed := false
    steps := none }

def c6F : Board :=
  { data := [Field.Options [1, 3, 4], Field.Options [1, 3, 4], Field.Options [1, 3, 4], Field.Options [1, 2], Field.Options [1, 2, 5, 6, 7, 8, 9], Field.Options [1, 2, 5, 6, 7, 8, 9], Field.Options [1, 2, 3, 4, 5, 6, 7, 8, 9], Field.Options [1, 2, 3, 4, 5, 6, 7, 8, 9], Field.Options [1, 2, 3, 4, 5, 6, 7, 8, 9], Field.Value 6, Field.Value 7, Field.Value 8, Field.Value 3, Field.Options [1, 2, 5, 9], Field.Options [1, 2, 5, 9], Field.Options [1, 2, 4, 5, 9], Field.Options [1, 2, 4, 5, 9], Field.Options [1, 2, 4, 5, 9], Field.Value 2, Field.Value 9, Field.Value 5, Field.Value 4, Field.Options [1, 6, 7, 8], Field.Options [1, 6, 7, 8], Field.Options [1, 3, 6, 7, 8], Field.Options [1, 3, 6, 7, 8], Field.Options [1, 3, 6, 7, 8], Field.Options [1, 3, 4, 7, 8, 9], Field.Options [1, 2, 3, 4, 6, 8], Field.Options [1, 2, 3, 4, 6, 7, 9], Field.Value 5, Field.Options [1, 2, 3, 4, 8, 9], Field.Options [1, 2, 3, 4, 8, 9], Field.Options [1, 2, 3, 4, 6, 7, 8, 9], Field.Options [1, 2, 3, 4, 6, 7, 8, 9], Field.Options [1, 2, 3, 4, 6, 7, 8, 9], Field.Options [1, 3, 4, 5, 7, 8, 9], Field.Options [1, 2, 3, 4, 5, 8], Field.Options [1, 2, 3, 4, 7, 9], Field.Value 6, Field.Options [1, 2, 3, 4, 8, 9], Field.Options [1, 2, 3, 4, 8, 9], Field.Options [1, 2, 3, 4, 5, 7, 8, 9], Field.Options [1, 2, 3, 4, 5, 7, 8, 9], Field.Options [1, 2, 3, 4, 5, 7, 8, 9], Field.Options [1, 3, 4, 5, 8, 9], Field.Options [1, 2, 3, 4, 5, 6, 8], Field.Options [1, 2, 3, 4, 6, 9], Field.Value 7, Field.Options [1, 2, 3, 4, 8, 9], Field.Options [1, 2, 3, 4, 8, 9], Field.Options [1, 2, 3, 4, 5, 6, 8, 9], Field.Options [1, 2, 3, 4, 5, 6, 8, 9], Field.Options [1, 2, 3, 4, 5, 6, 8, 9], Field.Options [1, 3, 4, 5, 7, 9], Field.Options [1, 2, 3, 4, 5, 6], Field.Options [1, 2, 3, 4, 6, 7, 9], Field.Value 8, Field.Options [1, 2, 3, 4, 5, 6, 7], Field.Options [1, 2, 3, 4, 5, 6, 7], Field.Options [1, 2, 3, 4, 5, 6, 7, 9], Field.Options [1, 2, 3, 4, 5, 6, 7, 9], Field.Options [1, 2, 3, 4, 5, 6, 7, 9], Field.Options [1, 3, 4, 5, 7, 8], Field.Options [1, 2, 3, 4, 5, 6, 8], Field.Options [1, 2, 3, 4, 6, 7], Field.Value 9, Field.Options [1, 2, 3, 4, 5, 6, 7], Field.Options [1, 2, 3, 4, 5, 6, 7], Field.Options [1, 2, 3, 4, 5, 6, 7, 8], Field.Options [1, 2, 3, 4, 5, 6, 7, 8], Field.Options [1, 2, 3, 4, 5, 6, 7, 8], Field.Options [1, 3, 4, 5, 7, 8, 9], Field.Options [1, 2, 3, 4, 5, 6, 8], Field.Options [1, 2, 3, 4, 6, 7, 9], Field.Options [1, 2], Field.Options [1, 2, 3, 4, 5, 6, 7], Field.Options [1, 2, 3, 4, 5, 6, 7], Field.Options [1, 2, 3, 4, 5, 6, 7, 8, 9], Field.Options [1, 2, 3, 4, 5, 6, 7, 8, 9], Field.Options [1, 2, 3, 4, 5, 6, 7, 8, 9]]
    changed := true
    steps := none }

def c6A1 : Board :=
  { data := [Field.Options [1, 3, 4], Field.Options [1, 3, 4], Field.Options [1, 3, 4], Field.Options [2], Field.Options [2, 5, 6, 7, 8, 9], Field.Options [2, 5, 6, 7, 8, 9], Field.Options [2, 5, 6, 7, 8, 9], Field.Options [2, 5, 6, 7, 8, 9], Field.Options [2, 5, 6, 7, 8, 9], Field.Value 6, Field.Value 7, Field.Value 8, Field.Value 3, Field.Options [1, 2, 5, 9], Field.Options [1, 2, 5, 9], Field.Options [1, 2, 4, 5, 9], Field.Options [1, 2, 4, 5, 9], Field.Options [1, 2, 4, 5, 9], Field.Value 2, Field.Value 9, Field.Value 5, Field.Value 4, Field.Options [1, 6, 7, 8], Field.Options [1, 6, 7, 8], Field.Options [1, 3, 6, 7, 8], Field.Options [1, 3, 6, 7, 8], Field.Options [1, 3, 6, 7, 8], Field.Options [1, 3, 4, 7, 8, 9], Field.Options [1, 2, 3, 4, 6, 8], Field.Options [1, 2, 3, 4, 6, 7, 9], Field.Value 5, Field.Options [1, 2, 3, 4, 8, 9], Field.Options [1, 2, 3, 4, 8, 9], Field.Options [1, 2, 3, 4, 6, 7, 8, 9], Field.Options [1, 2, 3, 4, 6, 7, 8, 9], Field.Options [1, 2, 3, 4, 6, 7, 8, 9], Field.Options [1, 3, 4, 5, 7, 8, 9], Field.Options [1, 2, 3, 4, 5, 8], Field.Options [1, 2, 3, 4, 7, 9], Field.Value 6, Field.Options [1, 2, 3, 4, 8, 9], Field.Options [1, 2, 3, 4, 8, 9], Field.Options [1, 2, 3, 4, 5, 7, 8, 9], Field.Options [1, 2, 3, 4, 5, 7, 8, 9], Field.Options [1, 2, 3, 4, 5, 7, 8, 9], Field.Options [1, 3, 4, 5, 8, 9], Field.Options [1, 2, 3, 4, 5, 6, 8], Field.Options [1, 2, 3, 4, 6, 9], Field.Value 7, Field.Options [1, 2, 3, 4, 8, 9], Field.Options [1, 2, 3, 4, 8, 9], Field.Options [1, 2, 3, 4, 5, 6, 8, 9], Field.Options [1, 2, 3, 4, 5, 6, 8, 9], Field.Options [1, 2, 3, 4, 5, 6, 8, 9], Field.Options [1, 3, 4, 5, 7, 9], Field.Options [1, 2, 3, 4, 5, 6], Field.Options [1, 2, 3, 4, 6, 7, 9], Field.Value 8, Field.Options [1, 2, 3, 4, 5, 6, 7], Field.Options [1, 2, 3, 4, 5, 6, 7], Field.Options [1, 2, 3, 4, 5, 6, 7, 9], Field.Options [1, 2, 3, 4, 5, 6, 7, 9], Field.Options [1, 2, 3, 4, 5, 6, 7, 9], Field.Options [1, 3, 4, 5, 7, 8], Field.Options [1, 2, 3, 4, 5, 6, 8], Field.Options [1, 2, 3, 4, 6, 7], Field.Value 9, Field.Options [1, 2, 3, 4, 5, 6, 7], Field.Options [1, 2, 3, 4, 5, 6, 7], Field.Options [1, 2, 3, 4, 5, 6, 7, 8], Field.Options [1, 2, 3, 4, 5, 6, 7, 8], Field.Options [1, 2, 3, 4, 5, 6, 7, 8], Field.Options [1, 3, 4, 5, 7, 8, 9], Field.Options [1, 2, 3, 4, 5, 6, 8], Field.Options [1, 2, 3, 4, 6, 7, 9], Field.Options [1, 2], Field.Options [1, 2, 3, 4, 5, 6, 7], Field.Options [1, 2, 3, 4, 5, 6, 7], Field.Options [1, 2, 3, 4, 5, 6, 7, 8, 9], Field.Options [1, 2, 3, 4, 5, 6, 7, 8, 9], Field.Options [1, 2, 3, 4, 5, 6, 7, 8, 9]]
    changed := false
    steps := none }

def c6B1 : Board :=
  { data := [Field.Options [1, 3, 4], Field.Options [1, 3, 4], Field.Options [1, 3, 4], Field.Value 2, Field.Options [5, 6, 7, 8, 9], Field.Options [5, 6, 7, 8, 9], Field.Options [5, 6, 7, 8, 9], Field.Options [5, 6, 7, 8, 9], Field.Options [5, 6, 7, 8, 9], Field.Value 6, Field.Value 7, Field.Value 8, Field.Value 3, Field.Options [1, 5, 9], Field.Options [1, 5, 9], Field.Options [1, 2, 4, 5, 9], Field.Options [1, 2, 4, 5, 9], Field.Options [1, 2, 4, 5, 9], Field.Value 2, Field.Value 9, Field.Value 5, Field.Value 4, Field.Options [1, 6, 7, 8], Field.Options [1, 6, 7, 8], Field.Options [1, 3, 6, 7, 8], Field.Options [1, 3, 6, 7, 8], Field.Options [1, 3, 6, 7, 8], Field.Options [1, 3, 4, 7, 8, 9], Field.Options [1, 2, 3, 4, 6, 8], Field.Options [1, 2, 3, 4, 6, 7, 9], Field.Value 5, Field.Options [1, 2, 3, 4, 8, 9], Field.Options [1, 2, 3, 4, 8, 9], Field.Options [1, 2, 3, 4, 6, 7, 8, 9], Field.Options [1, 2, 3, 4, 6, 7, 8, 9], Field.Options [1, 2, 3, 4, 6, 7, 8, 9], Field.Options [1, 3, 4, 5, 7, 8, 9], Field.Options [1, 2, 3, 4, 5, 8], Field.Options [1, 2, 3, 4, 7, 9], Field.Value 6, Field.Options [1, 2, 3, 4, 8, 9], Field.Options [1, 2, 3, 4, 8, 9], Field.Options [1, 2, 3, 4, 5, 7, 8, 9], Field.Options [1, 2, 3, 4, 5, 7, 8, 9], Field.Options [1, 2, 3, 4, 5, 7, 8, 9], Field.Options [1, 3, 4, 5, 8, 9], Field.Options [1, 2, 3, 4, 5, 6, 8], Field.Options [1, 2, 3, 4, 6, 9], Field.Value 7, Field.Options [1, 2, 3, 4, 8, 9], Field.Options [1, 2, 3, 4, 8, 9], Field.Options [1, 2, 3, 4, 5, 6, 8, 9], Field.Options [1, 2, 3, 4, 5, 6, 8, 9], Field.Options [1, 2, 3, 4, 5, 6, 8, 9], Field.Options [1, 3, 4, 5, 7, 9], Field.Options [1, 2, 3, 4, 5, 6], Field.Options [1, 2, 3, 4, 6, 7, 9], Field.Value 8, Field.Options [2, 3, 4, 5, 6, 7], Field.Options [2, 3, 4, 5, 6, 7], Field.Options [1, 2, 3, 4, 5, 6, 7, 9], Field.Options [1, 2, 3, 4, 5, 6, 7, 9], Field.Options [1, 2, 3, 4, 5, 6, 7, 9], Field.Options [1, 3, 4, 5, 7, 8], Field.Options [1, 2, 3, 4, 5, 6, 8], Field.Options [1, 2, 3, 4, 6, 7], Field.Value 9, Field.Options [2, 3, 4, 5, 6, 7], Field.Options [2, 3, 4, 5, 6, 7], Field.Options [1, 2, 3, 4, 5, 6, 7, 8], Field.Options [1, 2, 3, 4, 5, 6, 7, 8], Field.Options [1, 2, 3, 4, 5, 6, 7, 8], Field.Options [3, 4, 5, 7, 8, 9], Field.Options [2, 3, 4, 5, 6, 8], Field.Options [2, 3, 4, 6, 7, 9], Field.Value 1, Field.Options [2, 3, 4, 5, 6, 7], Field.Options [2, 3, 4, 5, 6, 7], Field.Options [2, 3, 4, 5, 6, 7, 8, 9], Field.Options [2, 3, 4, 5, 6, 7, 8, 9], Field.Options [2, 3, 4, 5, 6, 7, 8, 9]]
    changed := true
    steps := none }

def c6B2 : Board :=
  { data := [Field.Options [1, 3, 4], Field.Options [1, 3, 4], Field.Options [1, 3, 4], Field.Value 2, Field.Options [5, 6, 7, 8, 9], Field.Options [5, 6, 7, 8, 9], Field.Options [5, 6, 7, 8, 9], Field.Options [5, 6, 7, 8, 9], Field.Options [5, 6, 7, 8, 9], Field.Value 6, Field.Value 7, Field.Value 8, Field.Value 3, Field.Options [1, 5, 9], Field.Options [1, 5, 9], Field.Options [1, 2, 4, 5, 9], Field.Options [1, 2, 4, 5, 9], Field.Options [1, 2, 4, 5, 9], Field.Value 2, Field.Value 9, Field.Value 5, Field.Value 4, Field.Options [1, 6, 7, 8], Field.Options [1, 6, 7, 8], Field.Options [1, 3, 6, 7, 8], Field.Options [1, 3, 6, 7, 8], Field.Options [1, 3, 6, 7, 8], Field.Options [1, 3, 4, 7, 8, 9], Field.Options [1, 2, 3, 4, 6, 8], Field.Options [1, 2, 3, 4, 6, 7, 9], Field.Value 5, Field.Options [1, 2, 3, 4, 8, 9], Field.Options [1, 2, 3, 4, 8, 9], Field.Options [1, 2, 3, 4, 6, 7, 8, 9], Field.Options [1, 2, 3, 4, 6, 7, 8, 9], Field.Options [1, 2, 3, 4, 6, 7, 8, 9], Field.Options [1, 3, 4, 5, 7, 8, 9], Field.Options [1, 2, 3, 4, 5, 8], Field.Options [1, 2, 3, 4, 7, 9], Field.Value 6, Field.Options [1, 2, 3, 4, 8, 9], Field.Options [1, 2, 3, 4, 8, 9], Field.Options [1, 2, 3, 4, 5, 7, 8, 9], Field.Options [1, 2, 3, 4, 5, 7, 8, 9], Field.Options [1, 2, 3, 4, 5, 7, 8, 9], Field.Options [1, 3, 4, 5, 8, 9], Field.Options [1, 2, 3, 4, 5, 6, 8], Field.Options [1, 2, 3, 4, 6, 9], Field.Value 7, Field.Options [1, 2, 3, 4, 8, 9], Field.Options [1, 2, 3, 4, 8, 9], Field.Options [1, 2, 3, 4, 5, 6, 8, 9], Field.Options [1, 2, 3, 4, 5, 6, 8, 9], Field.Options [1, 2, 3, 4, 5, 6, 8, 9], Field.Options [1, 3, 4, 5, 7, 9], Field.Options [1, 2, 3, 4, 5, 6], Field.Options [1, 2, 3, 4, 6, 7, 9], Field.Value 8, Field.Options [2, 3, 4, 5, 6, 7], Field.Options [2, 3, 4, 5, 6, 7], Field.Options [1, 2, 3, 4, 5, 6, 7, 9], Field.Options [1, 2, 3, 4, 5, 6, 7, 9], Field.Options [1, 2, 3, 4, 5, 6, 7, 9], Field.Options [1, 3, 4, 5, 7, 8], Field.Options [1, 2, 3, 4, 5, 6, 8], Field.Options [1, 2, 3, 4, 6, 7], Field.Value 9, Field.Options [2, 3, 4, 5, 6, 7], Field.Options [2, 3, 4, 5, 6, 7], Field.Options [1, 2, 3, 4, 5, 6, 7, 8], Field.Options [1, 2, 3, 4, 5, 6, 7, 8], Field.Options [1, 2, 3, 4, 5, 6, 7, 8], Field.Options [3, 4, 5, 7, 8, 9], Field.Options [2, 3, 4, 5, 6, 8], Field.Options [2, 3, 4, 6, 7, 9], Field.Value 1, Field.Options [2, 3, 4, 5, 6, 7], Field.Options [2, 3, 4, 5, 6, 7], Field.Options [2, 3, 4, 5, 6, 7, 8, 9], Field.Options [2, 3, 4, 5, 6, 7, 8, 9], Field.Options [2, 3, 4, 5, 6, 7, 8, 9]]
    changed := false
    steps := none }

def c10F : Board :=
  { data := [Field.Options [], Field.Value 1, Field.Value 2, Field.Value 3, Field.Value 4, Field.Value 5, Field.Value 6, Field.Value 7, Field.Value 8, Field.Value 9, Field.Options [3, 4, 5, 6, 7, 8], Field.Options [3, 4, 5, 6, 7, 8], Field.Options [1, 2, 6, 7, 8], Field.Options [1, 2, 6, 7, 8], Field.Options [1, 2, 6, 7, 8], Field.Options [1, 2, 3, 4, 5], Field.Options [1, 2, 3, 4, 5], Field.Options [1, 2, 3, 4, 5], Field.Options [3, 4, 5, 6, 7, 8], Field.Options [3, 4, 5, 6, 7, 8], Field.Options [3, 4, 5, 6, 7, 8], Field.Options [1, 2, 6, 7, 8, 9], Field.Options [1, 2, 6, 7, 8, 9], Field.Options [1, 2, 6, 7, 8, 9], Field.Options [1, 2, 3, 4, 5, 9], Field.Options [1, 2, 3, 4, 5, 9], Field.Options [1, 2, 3, 4, 5, 9], Field.Options [1, 2, 3, 4, 5, 6, 7, 8], Field.Options [2, 3, 4, 5, 6, 7, 8, 9], Field.Options [1, 3, 4, 5, 6, 7, 8, 9], Field.Options [1, 2, 4, 5, 6, 7, 8, 9], Field.Options [1, 2, 3, 5, 6, 7, 8, 9], Field.Options [1, 2, 3, 4, 6, 7, 8, 9], Field.Options [1, 2, 3, 4, 5, 7, 8, 9], Field.Options [1, 2, 3, 4, 5, 6, 8, 9], Field.Options [1, 2, 3, 4, 5, 6, 7, 9], Field.Options [1, 2, 3, 4, 5, 6, 7, 8], Field.Options [2, 3, 4, 5, 6, 7, 8, 9], Field.Options [1, 3, 4, 5, 6, 7, 8, 9], Field.Options [1, 2, 4, 5, 6, 7, 8, 9], Field.Options [1, 2, 3, 5, 6, 7, 8, 9], Field.Options [1, 2, 3, 4, 6, 7, 8, 9], Field.Options [1, 2, 3, 4, 5, 7, 8, 9], Field.Options [1, 2, 3, 4, 5, 6, 8, 9], Field.Options [1, 2, 3, 4, 5, 6, 7, 9], Field.Options [1, 2, 3, 4, 5, 6, 7, 8], Field.Options [2, 3, 4, 5, 6, 7, 8, 9], Field.Options [1, 3, 4, 5, 6, 7, 8, 9], Field.Options [1, 2, 4, 5, 6, 7, 8, 9], Field.Options [1, 2, 3, 5, 6, 7, 8, 9], Field.Options [1, 2, 3, 4, 6, 7, 8, 9], Field.Options [1, 2, 3, 4, 5, 7, 8, 9], Field.Options [1, 2, 3, 4, 5, 6, 8, 9], Field.Options [1, 2, 3, 4, 5, 6, 7, 9], Field.Options [1, 2, 3, 4, 5, 6, 7, 8], Field.Options [2, 3, 4, 5, 6, 7, 8, 9], Field.Options [1, 3, 4, 5, 6, 7, 8, 9], Field.Options [1, 2, 4, 5, 6, 7, 8, 9], Field.Options [1, 2, 3, 5, 6, 7, 8, 9], Field.Options [1, 2, 3, 4, 6, 7, 8, 9], Field.Options [1, 2, 3, 4, 5, 7, 8, 9], Field.Options [1, 2, 3, 4, 5, 6, 8, 9], Field.Options [1, 2, 3, 4, 5, 6, 7, 9], Field.Options [1, 2, 3, 4, 5, 6, 7, 8], Field.Options [2, 3, 4, 5, 6, 7, 8, 9], Field.Options [1, 3, 4, 5, 6, 7, 8, 9], Field.Options [1, 2, 4, 5, 6, 7, 8, 9], Field.Options [1, 2, 3, 5, 6, 7, 8, 9], Field.Options [1, 2, 3, 4, 6, 7, 8, 9], Field.Options [1, 2, 3, 4, 5, 7, 8, 9], Field.Options [1, 2, 3, 4, 5, 6, 8, 9], Field.Options [1, 2, 3, 4, 5, 6, 7, 9], Field.Options [1, 2, 3, 4, 5, 6, 7, 8], Field.Options [2, 3, 4, 5, 6, 7, 8, 9], Field.Options [1, 3, 4, 5, 6, 7, 8, 9], Field.Options [1, 2, 4, 5, 6, 7, 8, 9], Field.Options [1, 2, 3, 5, 6, 7, 8, 9], Field.Options [1, 2, 3, 4, 6, 7, 8, 9], Field.Options [1, 2, 3, 4, 5, 7, 8, 9], Field.Options [1, 2, 3, 4, 5, 6, 8, 9], Field.Options [1, 2, 3, 4, 5, 6, 7, 9]]
    changed := true
    steps := none }

def c10S1 : Board :=
  { data := [Field.Options [], Field.Value 1, Field.Value 2, Field.Value 3, Field.Value 4, Field.Value 5, Field.Value 6, Field.Value 7, Field.Value 8, Field.Value 9, Field.Options [3, 4, 5, 6, 7, 8], Field.Options [3, 4, 5, 6, 7, 8], Field.Options [1, 2, 6, 7, 8], Field.Options [1, 2, 6, 7, 8], Field.Options [1, 2, 6, 7, 8], Field.Options [1, 2, 3, 4, 5], Field.Options [1, 2, 3, 4, 5], Field.Options [1, 2, 3, 4, 5], Field.Options [3, 4, 5, 6, 7, 8], Field.Options [3, 4, 5, 6, 7, 8], Field.Options [3, 4, 5, 6, 7, 8], Field.Options [1, 2, 6, 7, 8, 9], Field.Options [1, 2, 6, 7, 8, 9], Field.Options [1, 2, 6, 7, 8, 9], Field.Options [1, 2, 3, 4, 5], Field.Options [1, 2, 3, 4, 5], Field.Options [1, 2, 3, 4, 5], Field.Options [1, 2, 3, 4, 5, 6, 7, 8], Field.Options [2, 3, 4, 5, 6, 7, 8, 9], Field.Options [1, 3, 4, 5, 6, 7, 8, 9], Field.Options [1, 2, 4, 5, 6, 7, 8, 9], Field.Options [1, 2, 3, 5, 6, 7, 8, 9], Field.Options [1, 2, 3, 4, 6, 7, 8, 9], Field.Options [1, 2, 3, 4, 5, 7, 8, 9], Field.Options [1, 2, 3, 4, 5, 6, 8, 9], Field.Options [1, 2, 3, 4, 5, 6, 7, 9], Field.Options [1, 2, 3, 4, 5, 6, 7, 8], Field.Options [2, 3, 4, 5, 6, 7, 8, 9], Field.Options [1, 3, 4, 5, 6, 7, 8, 9], Field.Options [1, 2, 4, 5, 6, 7, 8, 9], Field.Options [1, 2, 3, 5, 6, 7, 8, 9], Field.Options [1, 2, 3, 4, 6, 7, 8, 9], Field.Options [1, 2, 3, 4, 5, 7, 8, 9], Field.Options [1, 2, 3, 4, 5, 6, 8, 9], Field.Options [1, 2, 3, 4, 5, 6, 7, 9], Field.Options [1, 2, 3, 4, 5, 6, 7, 8], Field.Options [2, 3, 4, 5, 6, 7, 8, 9], Field.Options [1, 3, 4, 5, 6, 7, 8, 9], Field.Options [1, 2, 4, 5, 6, 7, 8, 9], Field.Options [1, 2, 3, 5, 6, 7, 8, 9], Field.Options [1, 2, 3, 4, 6, 7, 8, 9], Field.Options [1, 2, 3, 4, 5, 7, 8, 9], Field.Options [1, 2, 3, 4, 5, 6, 8, 9], Field.Options [1, 2, 3, 4, 5, 6, 7, 9], Field.Options [1, 2, 3, 4, 5, 6, 7, 8], Field.Options [2, 3, 4, 5, 6, 7, 8, 9], Field.Options [1, 3, 4, 5, 6, 7, 8, 9], Field.Options [1, 2, 4, 5, 6, 7, 8, 9], Field.Options [1, 2, 3, 5, 6, 7, 8, 9], Field.Options [1, 2, 3, 4, 6, 7, 8, 9], Field.Options [1, 2, 3, 4, 5, 7, 8, 9], Field.Options [1, 2, 3, 4, 5, 6, 8, 9], Field.Options [1, 2, 3, 4, 5, 6, 7, 9], Field.Options [1, 2, 3, 4, 5, 6, 7, 8], Field.Options [2, 3, 4, 5, 6, 7, 8, 9], Field.Options [1, 3, 4, 5, 6, 7, 8, 9], Field.Options [1, 2, 4, 5, 6, 7, 8, 9], Field.Options [1, 2, 3, 5, 6, 7, 8, 9], Field.Options [1, 2, 3, 4, 6, 7, 8, 9], Field.Options [1, 2, 3, 4, 5, 7, 8, 9], Field.Options [1, 2, 3, 4, 5, 6, 8, 9], Field.Options [1, 2, 3, 4, 5, 6, 7, 9], Field.Options [1, 2, 3, 4, 5, 6, 7, 8], Field.Options [2, 3, 4, 5, 6, 7, 8, 9], Field.Options [1, 3, 4, 5, 6, 7, 8, 9], Field.Options [1, 2, 4, 5, 6, 7, 8, 9], Field.Options [1, 2, 3, 5, 6, 7, 8, 9], Field.Options [1, 2, 3, 4, 6, 7, 8, 9], Field.Options [1, 2, 3, 4, 5, 7, 8, 9], Field.Options [1, 2, 3, 4, 5, 6, 8, 9], Field.Options [1, 2, 3, 4, 5, 6, 7, 9]]
    changed := false
    steps := none }

def c1F : Board :=
  { data := [Field.Options [1, 8, 9], Field.Options [1, 8, 9], Field.Options [1, 8, 9], Field.Options [1, 2, 3, 4, 5, 6, 7, 8, 9], Field.Options [1, 2, 3, 4, 5, 6, 7, 8, 9], Field.Options [1, 2, 3, 4, 5, 6, 7, 8, 9], Field.Options [1, 2, 3, 4, 5, 6, 7, 8, 9], Field.Options [1, 2, 3, 4, 5, 6, 7, 8, 9], Field.Options [1, 2, 3, 4, 5, 6, 7, 8, 9], Field.Value 2, Field.Value 3, Field.Value 4, Field.Options [1, 5, 6, 7, 8, 9], Field.Options [1, 5, 6, 7, 8, 9], Field.Options [1, 5, 6, 7, 8, 9], Field.Options [1, 5, 6, 7, 8, 9], Field.Options [1, 5, 6, 7, 8, 9], Field.Options [1, 5, 6, 7, 8, 9], Field.Value 5, Field.Value 6, Field.Value 7, Field.Options [1, 2, 3, 4, 8, 9], Field.Options [1, 2, 3, 4, 8, 9], Field.Options [1, 2, 3, 4, 8, 9], Field.Options [1, 2, 3, 4, 8, 9], Field.Options [1, 2, 3, 4, 8, 9], Field.Options [1, 2, 3, 4, 8, 9], Field.Options [1, 3, 4, 6, 7, 8, 9], Field.Options [1, 2, 4, 5, 7, 8, 9], Field.Options [1, 2, 3, 5, 6, 8, 9], Field.Options [1, 2, 3, 4, 5, 6, 7, 8, 9], Field.Options [1, 2, 3, 4, 5, 6, 7, 8, 9], Field.Options [1, 2, 3, 4, 5, 6, 7, 8, 9], Field.Options [1, 2, 3, 4, 5, 6, 7, 8, 9], Field.Options [1, 2, 3, 4, 5, 6, 7, 8, 9], Field.Options [1, 2, 3, 4, 5, 6, 7, 8, 9], Field.Options [1, 3, 4, 6, 7, 8, 9], Field.Options [1, 2, 4, 5, 7, 8, 9], Field.Options [1, 2, 3, 5, 6, 8, 9], Field.Options [1, 2, 3, 4, 5, 6, 7, 8, 9], Field.Options [1, 2, 3, 4, 5, 6, 7, 8, 9], Field.Options [1, 2, 3, 4, 5, 6, 7, 8, 9], Field.Options [1, 2, 3, 4, 5, 6, 7, 8, 9], Field.Options [1, 2, 3, 4, 5, 6, 7, 8, 9], Field.Options [1, 2, 3, 4, 5, 6, 7, 8, 9], Field.Options [1, 3, 4, 6, 7, 8, 9], Field.Options [1, 2, 4, 5, 7, 8, 9], Field.Options [1, 2, 3, 5, 6, 8, 9], Field.Options [1, 2, 3, 4, 5, 6, 7, 8, 9], Field.Options [1, 2, 3, 4, 5, 6, 7, 8, 9], Field.Options [1, 2, 3, 4, 5, 6, 7, 8, 9], Field.Options [1, 2, 3, 4, 5, 6, 7, 8, 9], Field.Options [1, 2, 3, 4, 5, 6, 7, 8, 9], Field.Options [1, 2, 3, 4, 5, 6, 7, 8, 9], Field.Options [1, 3, 4, 6, 7, 8, 9], Field.Options [1, 2, 4, 5, 7, 8, 9], Field.Options [1, 2, 3, 5, 6, 8, 9], Field.Options [1, 2, 3, 4, 5, 6, 7, 8, 9], Field.Options [1, 2, 3, 4, 5, 6, 7, 8, 9], Field.Options [1, 2, 3, 4, 5, 6, 7, 8, 9], Field.Options [1, 2, 3, 4, 5, 6, 7, 8, 9], Field.Options [1, 2, 3, 4, 5, 6, 7, 8, 9], Field.Options [1, 2, 3, 4, 5, 6, 7, 8, 9], Field.Options [1, 3, 4, 6, 7, 8, 9], Field.Options [1, 2, 4, 5, 7, 8, 9], Field.Options [1, 2, 3, 5, 6, 8, 9], Field.Options [1, 2, 3, 4, 5, 6, 7, 8, 9], Field.Options [1, 2, 3, 4, 5, 6, 7, 8, 9], Field.Options [1, 2, 3, 4, 5, 6, 7, 8, 9], Field.Options [1, 2, 3, 4, 5, 6, 7, 8, 9], Field.Options [1, 2, 3, 4, 5, 6, 7, 8, 9], Field.Options [1, 2, 3, 4, 5, 6, 7, 8, 9], Field.Options [1, 3, 4, 6, 7, 8, 9], Field.Options [1, 2, 4, 5, 7, 8, 9], Field.Options [1, 2, 3, 5, 6, 8, 9], Field.Options [1, 2, 3, 4, 5, 6, 7, 8, 9], Field.Options [1, 2, 3, 4, 5, 6, 7, 8, 9], Field.Options [1, 2, 3, 4, 5, 6, 7, 8, 9], Field.Options [1, 2, 3, 4, 5, 6, 7, 8, 9], Field.Options [1, 2, 3, 4, 5, 6, 7, 8, 9], Field.Options [1, 2, 3, 4, 5, 6, 7, 8, 9]]
    changed := true
    steps := none }

def c1S : Board :=
  { data := [Field.Options [1, 8, 9], Field.Options [1, 8, 9], Field.Options [1, 8, 9], Field.Options [2, 3, 4, 5, 6, 7], Field.Options [2, 3, 4, 5, 6, 7], Field.Options [2, 3, 4, 5, 6, 7], Field.Options [2, 3, 4, 5, 6, 7], Field.Options [2, 3, 4, 5, 6, 7], Field.Options [2, 3, 4, 5, 6, 7], Field.Value 2, Field.Value 3, Field.Value 4, Field.Options [1, 5, 6, 7, 8, 9], Field.Options [1, 5, 6, 7, 8, 9], Field.Options [1, 5, 6, 7, 8, 9], Field.Options [1, 5, 6, 7, 8, 9], Field.Options [1, 5, 6, 7, 8, 9], Field.Options [1, 5, 6, 7, 8, 9], Field.Value 5, Field.Value 6, Field.Value 7, Field.Options [1, 2, 3, 4, 8, 9], Field.Options [1, 2, 3, 4, 8, 9], Field.Options [1, 2, 3, 4, 8, 9], Field.Options [1, 2, 3, 4, 8, 9], Field.Options [1, 2, 3, 4, 8, 9], Field.Options [1, 2, 3, 4, 8, 9], Field.Options [1, 3, 4, 6, 7, 8, 9], Field.Options [1, 2, 4, 5, 7, 8, 9], Field.Options [1, 2, 3, 5, 6, 8, 9], Field.Options [1, 2, 3, 4, 5, 6, 7, 8, 9], Field.Options [1, 2, 3, 4, 5, 6, 7, 8, 9], Field.Options [1, 2, 3, 4, 5, 6, 7, 8, 9], Field.Options [1, 2, 3, 4, 5, 6, 7, 8, 9], Field.Options [1, 2, 3, 4, 5, 6, 7, 8, 9], Field.Options [1, 2, 3, 4, 5, 6, 7, 8, 9], Field.Options [1, 3, 4, 6, 7, 8, 9], Field.Options [1, 2, 4, 5, 7, 8, 9], Field.Options [1, 2, 3, 5, 6, 8, 9], Field.Options [1, 2, 3, 4, 5, 6, 7, 8, 9], Field.Options [1, 2, 3, 4, 5, 6, 7, 8, 9], Field.Options [1, 2, 3, 4, 5, 6, 7, 8, 9], Field.Options [1, 2, 3, 4, 5, 6, 7, 8, 9], Field.Options [1, 2, 3, 4, 5, 6, 7, 8, 9], Field.Options [1, 2, 3, 4, 5, 6, 7, 8, 9], Field.Options [1, 3, 4, 6, 7, 8, 9], Field.Options [1, 2, 4, 5, 7, 8, 9], Field.Options [1, 2, 3, 5, 6, 8, 9], Field.Options [1, 2, 3, 4, 5, 6, 7, 8, 9], Field.Options [1, 2, 3, 4, 5, 6, 7, 8, 9], Field.Options [1, 2, 3, 4, 5, 6, 7, 8, 9], Field.Options [1, 2, 3, 4, 5, 6, 7, 8, 9], Field.Options [1, 2, 3, 4, 5, 6, 7, 8, 9], Field.Options [1, 2, 3, 4, 5, 6, 7, 8, 9], Field.Options [1, 3, 4, 6, 7, 8, 9], Field.Options [1, 2, 4, 5, 7, 8, 9], Field.Options [1, 2, 3, 5, 6, 8, 9], Field.Options [1, 2, 3, 4, 5, 6, 7, 8, 9], Field.Options [1, 2, 3, 4, 5, 6, 7, 8, 9], Field.Options [1, 2, 3, 4, 5, 6, 7, 8, 9], Field.Options [1, 2, 3, 4, 5, 6, 7, 8, 9], Field.Options [1, 2, 3, 4, 5, 6, 7, 8, 9], Field.Options [1, 2, 3, 4, 5, 6, 7, 8, 9], Field.Options [1, 3, 4, 6, 7, 8, 9], Field.Options [1, 2, 4, 5, 7, 8, 9], Field.Options [1, 2, 3, 5, 6, 8, 9], Field.Options [1, 2, 3, 4, 5, 6, 7, 8, 9], Field.Options [1, 2, 3, 4, 5, 6, 7, 8, 9], Field.Options [1, 2, 3, 4, 5, 6, 7, 8, 9], Field.Options [1, 2, 3, 4, 5, 6, 7, 8, 9], Field.Options [1, 2, 3, 4, 5, 6, 7, 8, 9], Field.Options [1, 2, 3, 4, 5, 6, 7, 8, 9], Field.Options [1, 3, 4, 6, 7, 8, 9], Field.Options [1, 2, 4, 5, 7, 8, 9], Field.Options [1, 2, 3, 5, 6, 8, 9], Field.Options [1, 2, 3, 4, 5, 6, 7, 8, 9], Field.Options [1, 2, 3, 4, 5, 6, 7, 8, 9], Field.Options [1, 2, 3, 4, 5, 6, 7, 8, 9], Field.Options [1, 2, 3, 4, 5, 6, 7, 8, 9], Field.Options [1, 2, 3, 4, 5, 6, 7, 8, 9], Field.Options [1, 2, 3, 4, 5, 6, 7, 8, 9]]
    changed := false
    steps := none }

/-! ### Claim theorems -/

/-- All 81 grid positions. -/
def allPos : List (Nat × Nat) :=
  (List.range 9).flatMap (fun r => (List.range 9).map (fun c => (r, c)))

/-- The neighbour set described by the specification: the other cells of
the row, union the other cells of the column, union the box cells in
neither the row nor the column. -/
def specNeighbours (row col : Nat) : List (Nat × Nat) :=
  allPos.filter (fun p =>
    (p.1 == row && p.2 != col) || (p.2 == col && p.1 != row) ||
    (p.1 / 3 == row / 3 && p.2 / 3 == col / 3 && p.1 != row && p.2 != col))

theorem c4row0 : ∀ col ∈ List.range 9,
    (Board.neighbours (0, col)).length = 20 ∧
    (Board.neighbours (0, col)).Nodup ∧
    ((0 : Nat), col) ∉ Board.neighbours (0, col) ∧
    (∀ p ∈ Board.neighbours (0, col), p ∈ specNeighbours 0 col) ∧
    (∀ p ∈ specNeighbours 0 col, p ∈ Board.neighbours (0, col)) := by decide

theorem c4row1 : ∀ col ∈ List.range 9,
    (Board.neighbours (1, col)).length = 20 ∧
    (Board.neighbours (1, col)).Nodup ∧
    ((1 : Nat), col) ∉ Board.neighbours (1, col) ∧
    (∀ p ∈ Board.neighbours (1, col), p ∈ specNeighbours 1 col) ∧
    (∀ p ∈ specNeighbours 1 col, p ∈ Board.neighbours (1, col)) := by decide

theorem c4row2 : ∀ col ∈ List.range 9,
    (Board.neighbours (2, col)).length = 20 ∧
    (Board.neighbours (2, col)).Nodup ∧
    ((2 : Nat), col) ∉ Board.neighbours (2, col) ∧
    (∀ p ∈ Board.neighbours (2, col), p ∈ specNeighbours 2 col) ∧
    (∀ p ∈ specNeighbours 2 col, p ∈ Board.neighbours (2, col)) := by decide

theorem c4row3 : ∀ col ∈ List.range 9,
    (Board.neighbours (3, col)).length = 20 ∧
    (Board.neighbours (3, col)).Nodup ∧
    ((3 : Nat), col) ∉ Board.neighbours (3, col) ∧
    (∀ p ∈ Board.neighbours (3, col), p ∈ specNeighbours 3 col) ∧
    (∀ p ∈ specNeighbours 3 col, p ∈ Board.neighbours (3, col)) := by decide

theorem c4row4 : ∀ col ∈ List.range 9,
    (Board.neighbours (4, col)).length = 20 ∧
    (Board.neighbours (4, col)).Nodup ∧
    ((4 : Nat), col) ∉ Board.neighbours (4, col) ∧
    (∀ p ∈ Board.neighbours (4, col), p ∈ specNeighbours 4 col) ∧
    (∀ p ∈ specNeighbours 4 col, p ∈ Board.neighbours (4, col)) := by decide

theorem c4row5 : ∀ col ∈ List.range 9,
    (Board.neighbours (5, col)).length = 20 ∧
    (Board.neighbours (5, col)).Nodup ∧
    ((5 : Nat), col) ∉ Board.neighbours (5, col) ∧
    (∀ p ∈ Board.neighbours (5, col), p ∈ specNeighbours 5 col) ∧
    (∀ p ∈ specNeighbours 5 col, p ∈ Board.neighbours (5, col)) := by decide

theorem c4row6 : ∀ col ∈ List.range 9,
    (Board.neighbours (6, col)).length = 20 ∧
    (Board.neighbours (6, col)).Nodup ∧
    ((6 : Nat), col) ∉ Board.neighbours (6, col) ∧
    (∀ p ∈ Board.neighbours (6, col), p ∈ specNeighbours 6 col) ∧
    (∀ p ∈ specNeighbours 6 col, p ∈ Board.neighbours (6, col)) := by decide

theorem c4row7 : ∀ col ∈ List.range 9,
    (Board.neighbours (7, col)).length = 20 ∧
    (Board.neighbours (7, col)).Nodup ∧
    ((7 : Nat), col) ∉ Board.neighbours (7, col) ∧
    (∀ p ∈ Board.neighbours (7, col), p ∈ specNeighbours 7 col) ∧
    (∀ p ∈ specNeighbours 7 col, p ∈ Board.neighbours (7, col)) := by decide

theorem c4row8 : ∀ col ∈ List.range 9,
    (Board.neighbours (8, col)).length = 20 ∧
    (Board.neighbours (8, col)).Nodup ∧
    ((8 : Nat), col) ∉ Board.neighbours (8, col) ∧
    (∀ p ∈ Board.neighbours (8, col), p ∈ specNeighbours 8 col) ∧
    (∀ p ∈ specNeighbours 8 col, p ∈ Board.neighbours (8, col)) := by decide

/-- C4: for every position, the computed neighbour list has exactly 20
members, no duplicates, never the position itself, and as a set (mutual
inclusion) it is the union of the other row cells, the other column
cells, and the box cells off the row and column. -/
theorem neighbours_complete : ∀ row ∈ List.range 9, ∀ col ∈ List.range 9,
    (Board.neighbours (row, col)).length = 20 ∧
    (Board.neighbours (row, col)).Nodup ∧
    (row, col) ∉ Board.neighbours (row, col) ∧
    (∀ p ∈ Board.neighbours (row, col), p ∈ specNeighbours row col) ∧
    (∀ p ∈ specNeighbours row col, p ∈ Board.neighbours (row, col)) := by
  intro row hrow
  rw [List.mem_range] at hrow
  interval_cases row
  · exact c4row0
  · exact c4row1
  · exact c4row2
  · exact c4row3
  · exact c4row4
  · exact c4row5
  · exact c4row6
  · exact c4row7
  · exact c4row8

/-- Witness for C4 at position (0, 0). -/
theorem neighbours_complete_witness :
    (0 : Nat) ∈ List.range 9 ∧
    ((Board.neighbours (0, 0)).length = 20 ∧
      (Board.neighbours (0, 0)).Nodup ∧
      ((0 : Nat), (0 : Nat)) ∉ Board.neighbours (0, 0) ∧
      (∀ p ∈ Board.neighbours (0, 0), p ∈ specNeighbours 0 0) ∧
      (∀ p ∈ specNeighbours 0 0, p ∈ Board.neighbours (0, 0))) :=
  ⟨by decide, neighbours_complete 0 (by decide) 0 (by decide)⟩

/-- C3: a single `set_idx` with an in-range value sets the cell, filters
the value out of every neighbour still holding options (leaving `Value`
neighbours untouched), appends a step exactly when recording is enabled,
raises the changed flag, and leaves every other cell unchanged. -/
theorem set_idx_spec (b : Board) (idx val : Nat) (h81 : b.data.length = 81)
    (hidx : idx < 81) (h1 : 1 ≤ val) (h9 : val ≤ 9) :
    ∃ b', b.set_idx idx val = some b' ∧
      b'.cell idx = Field.Value val ∧
      (∀ p ∈ Board.neighbours (idx / 9, idx % 9),
        (∀ opts, b.cell (p.1 * 9 + p.2) = Field.Options opts →
          b'.cell (p.1 * 9 + p.2) = Field.Options (opts.filter (fun x => x ≠ val))) ∧
        (∀ opts', b'.cell (p.1 * 9 + p.2) = Field.Options opts' → val ∉ opts') ∧
        (∀ w, b.cell (p.1 * 9 + p.2) = Field.Value w →
          b'.cell (p.1 * 9 + p.2) = Field.Value w)) ∧
      b'.steps = b.steps.map (fun s => s ++ [(idx, val)]) ∧
      b'.changed = true ∧
      (∀ j, j ≠ idx → j ∉ nIdx idx → b'.cell j = b.cell j) := by
  obtain ⟨b', hb'⟩ := set_idx_isSome b idx val h1 h9
  refine ⟨b', hb', cell_set_idx_self hb' (h81 ▸ hidx) h81, ?_,
    steps_set_idx hb', changed_set_idx hb', ?_⟩
  · intro p hp
    have hmem : p.1 * 9 + p.2 ∈ nIdx idx := List.mem_map_of_mem _ hp
    have hne : p.1 * 9 + p.2 ≠ idx := nIdx_ne_self idx hidx _ hmem
    have hcell : b'.cell (p.1 * 9 + p.2) = (b.cell (p.1 * 9 + p.2)).remove_option val := by
      rw [cell_set_idx hb' (p.1 * 9 + p.2), if_pos hmem,
        if_neg (fun hc => hne hc.1.symm)]
    refine ⟨?_, ?_, ?_⟩
    · intro opts hopts
      rw [hcell, hopts]
      rfl
    · intro opts' hopts'
      rw [hcell] at hopts'
      cases hc : b.cell (p.1 * 9 + p.2) with
      | Value w => rw [hc] at hopts'; simp [Field.remove_option] at hopts'
      | Options o =>
          rw [hc] at hopts'
          simp only [Field.remove_option, Field.Options.injEq] at hopts'
          subst hopts'
          intro hvm
          rcases List.mem_filter.mp hvm with ⟨-, hdec⟩
          simp at hdec
    · intro w hw
      rw [hcell, hw]
      rfl
  · intro j hne hmem
    rw [cell_set_idx hb' j, if_neg hmem, if_neg (fun hc => hne hc.1.symm)]

/-- Witness for C3: assigning 5 at the centre of a fresh board. -/
theorem set_idx_spec_witness :
    ∃ b', Board.new.set_idx 40 5 = some b' ∧
      b'.cell 40 = Field.Value 5 ∧
      (∀ p ∈ Board.neighbours (40 / 9, 40 % 9),
        (∀ opts, Board.new.cell (p.1 * 9 + p.2) = Field.Options opts →
          b'.cell (p.1 * 9 + p.2) = Field.Options (opts.filter (fun x => x ≠ 5))) ∧
        (∀ opts', b'.cell (p.1 * 9 + p.2) = Field.Options opts' → (5 : Nat) ∉ opts') ∧
        (∀ w, Board.new.cell (p.1 * 9 + p.2) = Field.Value w →
          b'.cell (p.1 * 9 + p.2) = Field.Value w)) ∧
      b'.steps = Board.new.steps.map (fun s => s ++ [(40, 5)]) ∧
      b'.changed = true ∧
      (∀ j, j ≠ 40 → j ∉ nIdx 40 → b'.cell j = Board.new.cell j) :=
  set_idx_spec Board.new 40 5 rfl (by decide) (by decide) (by decide)

/-- C8 counterexample: an out-of-range present value is not skipped; the
assertion in `Field::set` fires (modelled as `none`, a Rust panic). -/
theorem fill_oob_cex : Board.fill Board.new [some 10] = none := by decide

/-- C8 amended: absent entries are skipped, but present values must lie in
`1..9`; under that contract `fill` completes and, with recording on, the
recorded steps are exactly the present `(index, value)` pairs in order. -/
theorem fill_skips_amended (cs : List (Option Nat))
    (hw : ∀ o ∈ cs, ∀ v, o = some v → 1 ≤ v ∧ v ≤ 9) :
    ∃ b, Board.fill (Board.record_steps Board.new true) cs = some b ∧
      b.steps = some (((cs.take 81).enum).filterMap
        (fun p => p.2.map (fun v => (p.1, v)))) := by
  have key : ∀ (ps : List (Nat × Nat)) (s : Board) (l : List (Nat × Nat)),
      (∀ q ∈ ps, 1 ≤ q.2 ∧ q.2 ≤ 9) → s.steps = some l →
      ∃ s', ps.foldlM (fun (bd : Board) q => bd.set_idx q.1 q.2) s = some s' ∧
        s'.steps = some (l ++ ps) := by
    intro ps
    induction ps with
    | nil =>
        intro s l _ hl
        exact ⟨s, by rw [List.foldlM_nil]; rfl, by rw [hl]; simp⟩
    | cons q ps ih =>
        intro s l hr hl
        obtain ⟨h1, h9⟩ := hr q (List.mem_cons_self q ps)
        obtain ⟨s1, hs1⟩ := set_idx_isSome s q.1 q.2 h1 h9
        have hst1 : s1.steps = some (l ++ [q]) := by
          rw [steps_set_idx hs1, hl]
          rfl
        obtain ⟨s', hs', hst'⟩ := ih s1 (l ++ [q])
          (fun p hp => hr p (List.mem_cons_of_mem _ hp)) hst1
        refine ⟨s', ?_, by rw [hst']; simp⟩
        rw [List.foldlM_cons, hs1]
        simp only [Option.bind_eq_bind, Option.some_bind]
        exact hs'
  have hrange : ∀ q ∈ ((cs.take 81).enum).filterMap
      (fun p => p.2.map (fun v => (p.1, v))), 1 ≤ q.2 ∧ q.2 ≤ 9 := by
    intro q hq
    rw [List.mem_filterMap] at hq
    obtain ⟨p, hp, hmap⟩ := hq
    rw [List.mem_enum_iff_getElem?] at hp
    have hp2 : p.2 ∈ cs.take 81 := List.getElem?_mem hp
    have hp2' : p.2 ∈ cs := List.mem_of_mem_take hp2
    cases hx : p.2 with
    | none => rw [hx] at hmap; cases hmap
    | some x =>
        rw [hx] at hmap
        cases hmap
        exact hw p.2 hp2' x hx
  obtain ⟨b, hb, hst⟩ := key _ (Board.record_steps Board.new true) [] hrange rfl
  exact ⟨b, hb, by rw [hst]; simp⟩

/-- Witness for C8 amended: three entries, the middle one absent. -/
theorem fill_skips_amended_witness :
    (∀ o ∈ [some 5, none, some 3], ∀ v, o = some v → 1 ≤ v ∧ v ≤ 9) ∧
    ∃ b, Board.fill (Board.record_steps Board.new true) [some 5, none, some 3] = some b ∧
      b.steps = some ((([some 5, none, some 3].take 81).enum).filterMap
        (fun p => p.2.map (fun v => (p.1, v)))) :=
  ⟨by decide, fill_skips_amended [some 5, none, some 3] (by decide)⟩

/-- C1 amended: the sweep resets the changed flag on entry (the incoming
value is irrelevant); with recording on, the flag ends true exactly when
the sweep appended a step, i.e. performed an assignment — eliminations by
the line-restriction rule do not raise it; and the loop repeats exactly
while the flag is true. -/
theorem changed_flag_spec :
    (∀ (b : Board) (c : Bool), Board.sweep { b with changed := c } = Board.sweep b) ∧
    (∀ (b b' : Board) (l : List (Nat × Nat)), b.data.length = 81 → b.steps = some l →
      Board.sweep b = some b' → (b'.changed = true ↔ b'.steps ≠ some l)) ∧
    (∀ (n : Nat) (b : Board), Board.solveFuel (n + 1) b =
      (Board.sweep b).bind (fun b' => if b'.changed then Board.solveFuel n b' else some b')) := by
  refine ⟨fun b c => rfl, ?_, fun n b => rfl⟩
  intro b b' l h81 hsteps hs
  have hstp := (SInv_sweep h81 hs).stp
  rw [hsteps] at hstp
  obtain ⟨t, ht, hiff⟩ := hstp
  rw [ht, hiff]
  constructor
  · intro htne hsome
    exact htne (by simpa using Option.some.inj hsome)
  · intro hne
    intro ht0
    subst ht0
    exact hne (by simp)

/-- A fully decided recording board, for the C1 witness. -/
def bAllVal : Board :=
  { data := expectedC2.map Field.Value, changed := false, steps := some [] }

/-- Witness for C1: a recording board whose sweep makes no assignment. -/
theorem changed_flag_spec_witness :
    ∃ b', Board.sweep bAllVal = some b' ∧
      (b'.changed = true ↔ b'.steps ≠ some []) := by
  have hs : (Board.sweep bAllVal).isSome = true := by decide
  exact ⟨(Board.sweep bAllVal).get hs,
    (Option.some_get hs).symm,
    changed_flag_spec.2.1 bAllVal _ [] rfl rfl (Option.some_get hs).symm⟩

theorem c1_fill : Board.fill Board.new cl1 = some c1F := by decide

theorem c1_sweep : Board.sweep c1F = some c1S := by decide

/-- C1 counterexample: on `cl1` a sweep performs candidate eliminations
(the data changes) yet ends with `changed = false`, so the flag is not
"true iff the sweep produced an assignment or an elimination". -/
theorem changed_flag_cex :
    ((Board.fill Board.new cl1).bind (fun b =>
      (Board.sweep b).map (fun b' => (b'.changed, decide (b'.data = b.data))))) =
      some (false, false) := by
  rw [c1_fill]
  simp only [Option.some_bind]
  rw [c1_sweep]
  decide

/-- C10: a cell can reach an empty candidate set and nothing treats it as
an error: `remove_option` on it is a no-op, a sweep never assigns it (it
is ignored by the sole-option rule and joins no digit list), and on the
conflicting clues `cl10` the solver terminates normally leaving the cell
empty. -/
theorem c10_fill : Board.fill Board.new cl10 = some c10F := by decide

theorem c10_sweep : Board.sweep c10F = some c10S1 := by decide

theorem c10_solve : Board.solve c10F = some c10S1 :=
  solveFuel_step_done 810 c10_sweep rfl

theorem empty_candidates_spec :
    (∀ v, (Field.Options []).remove_option v = Field.Options []) ∧
    (∀ b b' : Board, b.data.length = 81 → Board.sweep b = some b' →
      ∀ i, b.cell i = Field.Options [] → b'.cell i = Field.Options []) ∧
    ((Board.fill Board.new cl10).bind Board.solve).map (fun bb => bb.cell 0) =
      some (Field.Options []) := by
  refine ⟨fun v => rfl, ?_, ?_⟩
  · intro b b' h81 hs i hi
    exact (SInv_sweep h81 hs).emp i hi
  · rw [c10_fill, Option.some_bind, c10_solve]
    decide

/-- A board with an emptied candidate set, for the C10 witness. -/
def b10 : Board :=
  { data := (expectedC2.map Field.Value).set 0 (Field.Options [])
    changed := false
    steps := none }

/-- Witness for C10: a sweep on `b10` keeps cell 0 empty. -/
theorem empty_candidates_spec_witness :
    ∃ b', Board.sweep b10 = some b' ∧ b'.cell 0 = Field.Options [] := by
  have hs : (Board.sweep b10).isSome = true := by decide
  exact ⟨(Board.sweep b10).get hs, (Option.some_get hs).symm,
    empty_candidates_spec.2.1 b10 _ rfl (Option.some_get hs).symm 0 (by decide)⟩

theorem sweepN_len : ∀ (n : Nat) (b b' : Board), Board.sweepN n b = some b' →
    b.data.length = 81 → b'.data.length = 81 := by
  intro n
  induction n with
  | zero =>
      intro b b' h h81
      cases h
      exact h81
  | succ n ih =>
      intro b b' h h81
      unfold Board.sweepN at h
      cases hc : Board.sweepN n b with
      | none => rw [hc] at h; cases h
      | some c =>
          rw [hc, Option.some_bind] at h
          exact ((SInv_sweep (ih b c hc h81) h).len).trans (ih b c hc h81)

/-- C7: starting from a fresh board, `fill` only collapses or keeps full
candidate sets, and every further sweep evolves every cell monotonically —
candidates only shrink or collapse, a `Value` cell keeps its value and
never reverts to `Options`. -/
theorem monotonicity_spec (cs : List (Option Nat)) (b : Board)
    (hf : Board.fill Board.new cs = some b) :
    (∀ i, cellMono (Board.new.cell i) (b.cell i)) ∧
    (∀ n b1 b2, Board.sweepN n b = some b1 → Board.sweep b1 = some b2 →
      ∀ i, cellMono (b1.cell i) (b2.cell i)) := by
  have hshr := BShr_fill hf
  constructor
  · intro i
    refine cellMono_of_cellShrink ?_ (hshr.2 i)
    rw [cell_new]
    by_cases hi : i < 81
    · rw [if_pos hi]
      exact ⟨_, rfl⟩
    · rw [if_neg hi]
      exact ⟨[], rfl⟩
  · intro n b1 b2 hn hs i
    have h81b : b.data.length = 81 := hshr.1
    exact (SInv_sweep (sweepN_len n b b1 hn h81b) hs).mono i

/-- Witness for C7 with no clues: one sweep from the fresh board. -/
theorem monotonicity_spec_witness :
    (∀ i, cellMono (Board.new.cell i) (Board.new.cell i)) ∧
    (∀ n b1 b2, Board.sweepN n Board.new = some b1 → Board.sweep b1 = some b2 →
      ∀ i, cellMono (b1.cell i) (b2.cell i)) :=
  monotonicity_spec [] Board.new rfl

theorem solveFuel_mono_len : ∀ (n : Nat) (x y : Board), Board.solveFuel n x = some y →
    x.data.length = 81 →
    (∀ i, cellMono (x.cell i) (y.cell i)) ∧ y.data.length = 81 := by
  intro n
  induction n with
  | zero =>
      intro x y h
      cases h
  | succ n ih =>
      intro x y h h81
      unfold Board.solveFuel at h
      cases hc : Board.sweep x with
      | none => rw [hc] at h; cases h
      | some x1 =>
          rw [hc, Option.some_bind] at h
          have hI := SInv_sweep h81 hc
          cases hch : x1.changed with
          | false =>
              rw [hch] at h
              simp at h
              subst h
              exact ⟨hI.mono, hI.len.trans h81⟩
          | true =>
              rw [hch] at h
              simp only [if_true] at h
              obtain ⟨hm, hl⟩ := ih x1 y h (hI.len.trans h81)
              exact ⟨fun i => cellMono_trans (hI.mono i) (hm i), hl⟩

theorem c6_fill : Board.fill Board.new cl6 = some c6F := by decide

theorem c6_sweepA1 : Board.sweep c6F = some c6A1 := by decide

theorem c6_sweepB1 : Board.sweep c6A1 = some c6B1 := by decide

theorem c6_sweepB2 : Board.sweep c6B1 = some c6B2 := by decide

theorem c6_solve1 : Board.solve c6F = some c6A1 :=
  solveFuel_step_done 810 c6_sweepA1 rfl

theorem c6_solve2 : Board.solve c6A1 = some c6B2 :=
  (solveFuel_step_true 810 c6_sweepB1 rfl).trans (solveFuel_step_done 809 c6_sweepB2 rfl)

/-- C6 counterexample: on `cl6` the first solve ends with an
eliminations-only sweep, and a second solve changes the board further. -/
theorem solve_idempotent_cex :
    ((Board.fill Board.new cl6).bind Board.solve).bind (fun b1 =>
      (Board.solve b1).map (fun b2 => decide (b2.data = b1.data))) = some false := by
  rw [c6_fill, Option.some_bind, c6_solve1]
  simp only [Option.some_bind]
  rw [c6_solve2]
  decide

/-- C6 amended: a second `solve` need not be the identity — a run can end
on an eliminations-only sweep which leaves deductions for the next call —
but it can only refine the first result monotonically: candidates shrink
or collapse, `Value` cells keep their values. -/
theorem solve_twice_mono (cs : List (Option Nat)) (b b1 b2 : Board)
    (hf : Board.fill Board.new cs = some b)
    (h1 : Board.solve b = some b1) (h2 : Board.solve b1 = some b2) :
    ∀ i, cellMono (b1.cell i) (b2.cell i) := by
  have h81 : b.data.length = 81 := (BShr_fill hf).1
  have h81b1 := (solveFuel_mono_len 811 b b1 h1 h81).2
  exact (solveFuel_mono_len 811 b1 b2 h2 h81b1).1

/-- Witness for C6 amended: two successive solves of the fresh board. -/
theorem solve_twice_mono_witness :
    ∃ b1 b2, Board.solve Board.new = some b1 ∧ Board.solve b1 = some b2 ∧
      ∀ i, cellMono (b1.cell i) (b2.cell i) :=
  ⟨Board.new, Board.new, solve_new_fix, solve_new_fix,
    solve_twice_mono [] Board.new Board.new Board.new rfl solve_new_fix solve_new_fix⟩

/-- C5: on any board produced by feeding clues to a fresh board, the
fixed-point loop terminates within 810 sweeps (at most 81 fixings plus
81 * 9 eliminations): every fuel of at least 810 — in particular the 811
used by `solve` — yields the same result. -/
theorem solve_terminates (cs : List (Option Nat)) (b : Board)
    (h : Board.fill Board.new cs = some b) :
    ∃ b', (∀ n, 810 ≤ n → Board.solveFuel n b = some b') ∧ Board.solve b = some b' := by
  have hshr := BShr_fill h
  have h81 : b.data.length = 81 := hshr.1
  have hv : Valid b := Valid_of_shrink Valid_new hshr.2
  rcases fill_new_mu h with hmu | heq
  · obtain ⟨r, hr⟩ := solveFuel_stable (muB b + 1) b hv h81 (Nat.lt_succ_self _)
    exact ⟨r, fun n hn => hr n (by omega), hr 811 (by omega)⟩
  · subst heq
    have hall : ∀ n, 1 ≤ n → Board.solveFuel n Board.new = some Board.new := by
      intro n hn
      cases n with
      | zero => omega
      | succ n' =>
          show Board.solveFuel (n' + 1) Board.new = some Board.new
          unfold Board.solveFuel
          rw [sweep_new_fix, Option.some_bind]
          rfl
    exact ⟨Board.new, fun n hn => hall n (by omega), hall 811 (by omega)⟩

/-- Witness for C5 with an empty clue list. -/
theorem solve_terminates_witness :
    ∃ b', (∀ n, 810 ≤ n → Board.solveFuel n Board.new = some b') ∧
      Board.solve Board.new = some b' :=
  solve_terminates [] Board.new rfl

/-! ### C9: round-trip of a solved grid -/

/-- The 27 units of the grid: 9 rows, 9 columns, 9 boxes. -/
def gridUnits : List (List Nat) :=
  ((List.range 9).map rowPositions) ++ ((List.range 9).map colPositions) ++
  ((List.range 3).flatMap (fun sr => (List.range 3).map (fun sc => boxPositions sr sc)))

/-- A fully solved valid grid: 81 digits in `1..9`, every unit holding
every digit. -/
def isSolvedGrid (g : List Nat) : Prop :=
  g.length = 81 ∧ (∀ v ∈ g, 1 ≤ v ∧ v ≤ 9) ∧
  ∀ u ∈ gridUnits, ∀ d ∈ List.range 10, 1 ≤ d → d ∈ u.map (fun i => g.getD i 0)

theorem filterMap_enumFrom_map_some (g : List Nat) : ∀ k,
    ((g.map some).enumFrom k).filterMap (fun p => p.2.map (fun x => (p.1, x))) =
      g.enumFrom k := by
  induction g with
  | nil => intro k; rfl
  | cons a g ih =>
      intro k
      simp only [List.map_cons, List.enumFrom_cons, List.filterMap_cons]
      simp only [Option.map_some']
      rw [ih (k + 1)]

theorem mem_enum_self {α : Type _} (l : List α) (i : Nat) (dflt : α) (hi : i < l.length) :
    (i, l.getD i dflt) ∈ l.enum := by
  rw [List.mem_enum_iff_getElem?]
  show l[i]? = some (l.getD i dflt)
  rw [List.getD_eq_getElem?_getD, List.getElem?_eq_getElem hi]
  rfl

theorem foldlM_set_idx_covers : ∀ (ps : List (Nat × Nat)) (s : Board),
    s.data.length = 81 → (∀ q ∈ ps, q.1 < 81 ∧ 1 ≤ q.2 ∧ q.2 ≤ 9) →
    ∃ s', ps.foldlM (fun (bd : Board) q => bd.set_idx q.1 q.2) s = some s' ∧
      s'.data.length = 81 ∧
      (∀ i, (s.cell i).isVal = true → (s'.cell i).isVal = true) ∧
      (∀ q ∈ ps, (s'.cell q.1).isVal = true) := by
  intro ps
  induction ps with
  | nil =>
      intro s h81 _
      exact ⟨s, by rw [List.foldlM_nil]; rfl, h81, fun i h => h,
        fun q hq => absurd hq (List.not_mem_nil q)⟩
  | cons q ps ih =>
      intro s h81 hfacts
      obtain ⟨hq1, hq2a, hq2b⟩ := hfacts q (List.mem_cons_self q ps)
      obtain ⟨s1, hs1⟩ := set_idx_isSome s q.1 q.2 hq2a hq2b
      have h81s1 : s1.data.length = 81 := (length_set_idx hs1).trans h81
      obtain ⟨s', hs', h81', hstab, hcov⟩ := ih s1 h81s1
        (fun p hp => hfacts p (List.mem_cons_of_mem _ hp))
      have hset : (s1.cell q.1).isVal = true := by
        rw [cell_set_idx_self hs1 (h81 ▸ hq1) h81]
        rfl
      refine ⟨s', ?_, h81', ?_, ?_⟩
      · rw [List.foldlM_cons, hs1]
        simp only [Option.bind_eq_bind, Option.some_bind]
        exact hs'
      · intro i hi
        exact hstab i (cellShrink_isVal ((BShr_set_idx hs1).2 i) hi)
      · intro p hp
        rcases List.mem_cons.mp hp with heq | hp'
        · subst heq
          exact hstab p.1 hset
        · exact hcov p hp'

/-- A sweep of a fully decided board changes no cell, makes no step, and
ends with the changed flag down. -/
theorem sweep_allVal {b : Board} (h81 : b.data.length = 81)
    (hall : ∀ i, i < 81 → (b.cell i).isVal = true) :
    Board.sweep b = some { b with changed := false } := by
  have hcell : ∀ i, i < 81 → ∃ w, b.cell i = Field.Value w := by
    intro i hi
    cases hc : b.cell i with
    | Value w => exact ⟨w, rfl⟩
    | Options o =>
        have := hall i hi
        rw [hc] at this
        simp [Field.isVal] at this
  unfold Board.sweep
  have hsole : Board.solve_sole_option { b with changed := false } =
      some { b with changed := false } := by
    unfold Board.solve_sole_option
    have hnil : (({ b with changed := false } : Board).data.enum).filterMap
        (fun p => match p.2 with
          | Field.Options [v] => some (p.1, v)
          | _ => none) = [] := by
      rw [List.filterMap_eq_nil]
      intro p hp
      obtain ⟨hlt, hgd⟩ := mem_enum_facts hp df
      obtain ⟨w, hw⟩ := hcell p.1 (h81 ▸ hlt)
      rw [show p.2 = Field.Value w from by rw [← hgd]; exact hw]
    rw [hnil, List.foldlM_nil]
    rfl
  rw [hsole, Option.some_bind]
  have hsbn : ∀ positions, (∀ t ∈ positions, t < 81) →
      Board.solve_by_neighbourhood { b with changed := false } positions =
        some { b with changed := false } := by
    intro positions hpos
    unfold Board.solve_by_neighbourhood
    have hbuild : Board.sbn_build { b with changed := false } positions =
        some (List.replicate 9 []) := by
      unfold Board.sbn_build
      apply foldlM_fix
      intro idx hidx
      obtain ⟨w, hw⟩ := hcell idx (hpos idx hidx)
      rw [show ({ b with changed := false } : Board).data.getD idx df = Field.Value w
        from hw]
    rw [hbuild, Option.some_bind]
    apply foldlM_fix
    intro q hq
    have hq2 : q.2 = [] := by
      have h1 := (mem_enum_facts hq ([] : List Nat)).1
      have h2 := (mem_enum_facts hq ([] : List Nat)).2
      rw [List.length_replicate] at h1
      rw [List.getD_eq_getElem?_getD, List.getElem?_replicate, if_pos h1] at h2
      exact h2.symm
    rw [hq2]
    rfl
  rw [foldlM_fix _ _ _
    (fun row hrow => hsbn (rowPositions row) (rowPositions_lt row (List.mem_range.mp hrow))),
    Option.some_bind]
  rw [foldlM_fix _ _ _
    (fun col hcol => hsbn (colPositions col) (colPositions_lt col (List.mem_range.mp hcol))),
    Option.some_bind]
  exact foldlM_fix _ _ _
    (fun sr hsr => foldlM_fix _ _ _
      (fun sc hsc => hsbn (boxPositions sr sc)
        (boxPositions_lt sr (List.mem_range.mp hsr) sc (List.mem_range.mp hsc))))

/-- C9: feeding a fully solved grid through `fill` decides all 81 cells,
and a subsequent `solve` changes no cell. -/
theorem solved_roundtrip (g : List Nat) (hg : isSolvedGrid g) :
    ∃ b, Board.fill Board.new (g.map some) = some b ∧
      (∀ i, i < 81 → ∃ v, b.cell i = Field.Value v) ∧
      ∃ b', Board.solve b = some b' ∧ b'.data = b.data := by
  obtain ⟨hlen, hrange, -⟩ := hg
  have hpairs : (((g.map some).take Board.new.data.length).enum).filterMap
      (fun p => p.2.map (fun x => (p.1, x))) = g.enum := by
    rw [show ((g.map some).take Board.new.data.length) = g.map some from
      List.take_of_length_le (by rw [List.length_map, hlen]; exact Nat.le_refl 81)]
    exact filterMap_enumFrom_map_some g 0
  have hfacts : ∀ q ∈ g.enum, q.1 < 81 ∧ 1 ≤ q.2 ∧ q.2 ≤ 9 := by
    intro q hq
    have h1 := (mem_enum_facts hq 0).1
    rw [List.mem_enum_iff_getElem?] at hq
    have h2 := hrange q.2 (List.getElem?_mem hq)
    exact ⟨hlen ▸ h1, h2.1, h2.2⟩
  obtain ⟨b, hb, h81b, hstab, hcov⟩ := foldlM_set_idx_covers g.enum Board.new rfl hfacts
  have hfill : Board.fill Board.new (g.map some) = some b := by
    unfold Board.fill
    rw [hpairs]
    exact hb
  have hall : ∀ i, i < 81 → (b.cell i).isVal = true := by
    intro i hi
    exact hcov (i, g.getD i 0) (mem_enum_self g i 0 (hlen ▸ hi))
  have hvals : ∀ i, i < 81 → ∃ v, b.cell i = Field.Value v := by
    intro i hi
    cases hc : b.cell i with
    | Value w => exact ⟨w, rfl⟩
    | Options o =>
        have := hall i hi
        rw [hc] at this
        simp [Field.isVal] at this
  have hsw := sweep_allVal h81b hall
  refine ⟨b, hfill, hvals, { b with changed := false }, ?_, rfl⟩
  show Board.solveFuel 811 b = some { b with changed := false }
  unfold Board.solveFuel
  rw [hsw, Option.some_bind]
  rfl

/-- Witness for C9: the solved grid of the embedded normal-puzzle test. -/
theorem solved_roundtrip_witness :
    isSolvedGrid solvedGrid ∧
    ∃ b, Board.fill Board.new (solvedGrid.map some) = some b ∧
      (∀ i, i < 81 → ∃ v, b.cell i = Field.Value v) ∧
      ∃ b', Board.solve b = some b' ∧ b'.data = b.data :=
  ⟨by unfold isSolvedGrid; decide,
    solved_roundtrip solvedGrid (by unfold isSolvedGrid; decide)⟩

/-! ### C2: the hard-puzzle scenario -/

theorem c2x_fill : Board.fill Board.new cl2spec = some c2xF := by decide

theorem c2x_s1 : Board.sweep c2xF = some c2xS1 := by decide

theorem c2x_s2 : Board.sweep c2xS1 = some c2xS2 := by decide

theorem c2x_s3 : Board.sweep c2xS2 = some c2xS3 := by decide

theorem c2x_s4 : Board.sweep c2xS3 = some c2xS4 := by decide

theorem c2x_s5 : Board.sweep c2xS4 = some c2xS5 := by decide

theorem c2x_solve : Board.solve c2xF = some c2xS5 := by
  have h1 : Board.solveFuel 811 c2xF = Board.solveFuel 810 c2xS1 :=
    solveFuel_step_true 810 c2x_s1 rfl
  have h2 : Board.solveFuel 810 c2xS1 = Board.solveFuel 809 c2xS2 :=
    solveFuel_step_true 809 c2x_s2 rfl
  have h3 : Board.solveFuel 809 c2xS2 = Board.solveFuel 808 c2xS3 :=
    solveFuel_step_true 808 c2x_s3 rfl
  have h4 : Board.solveFuel 808 c2xS3 = Board.solveFuel 807 c2xS4 :=
    solveFuel_step_true 807 c2x_s4 rfl
  have h5 : Board.solveFuel 807 c2xS4 = some c2xS5 :=
    solveFuel_step_done 806 c2x_s5 rfl
  exact (((h1.trans h2).trans h3).trans h4).trans h5

/-- C2 counterexample: the clue string quoted in the specification is 84
characters long; feeding it through `fill` misaligns the clues and `solve`
does not produce the stated digits. -/
theorem scenario_hard_cex :
    cl2spec.length = 84 ∧
    ((Board.fill Board.new cl2spec).bind Board.solve).map
      (fun b => decide (b.data = expectedC2.map Field.Value)) = some false := by
  refine ⟨by decide, ?_⟩
  rw [c2x_fill, Option.some_bind, c2x_solve]
  decide

theorem c2a_fill : Board.fill Board.new cl2fixed = some c2aF := by decide

theorem c2a_s1 : Board.sweep c2aF = some c2aS1 := by decide

theorem c2a_s2 : Board.sweep c2aS1 = some c2aS2 := by decide

theorem c2a_s3 : Board.sweep c2aS2 = some c2aS3 := by decide

theorem c2a_s4 : Board.sweep c2aS3 = some c2aS4 := by decide

theorem c2a_s5 : Board.sweep c2aS4 = some c2aS5 := by decide

theorem c2a_solve : Board.solve c2aF = some c2aS5 := by
  have h1 : Board.solveFuel 811 c2aF = Board.solveFuel 810 c2aS1 :=
    solveFuel_step_true 810 c2a_s1 rfl
  have h2 : Board.solveFuel 810 c2aS1 = Board.solveFuel 809 c2aS2 :=
    solveFuel_step_true 809 c2a_s2 rfl
  have h3 : Board.solveFuel 809 c2aS2 = Board.solveFuel 808 c2aS3 :=
    solveFuel_step_true 808 c2a_s3 rfl
  have h4 : Board.solveFuel 808 c2aS3 = Board.solveFuel 807 c2aS4 :=
    solveFuel_step_true 807 c2a_s4 rfl
  have h5 : Board.solveFuel 807 c2aS4 = some c2aS5 :=
    solveFuel_step_done 806 c2a_s5 rfl
  exact (((h1.trans h2).trans h3).trans h4).trans h5

/-- C2 amended: with the 81-character clue string of the embedded test,
`solve` yields exactly the stated digits, row-major. -/
theorem scenario_hard_amended :
    ((Board.fill Board.new cl2fixed).bind Board.solve).map Board.data =
      some (expectedC2.map Field.Value) := by
  rw [c2a_fill, Option.some_bind, c2a_solve]
  decide

end Sudoku
